import Mathlib

/-!
# terraform-provider-flashblade: file-system resource lifecycle

A shallow embedding of `internal/client/client.go`,
`internal/provider/resource_file_system.go` and the `Configure` method of
`internal/provider/provider.go`.

* Go pointers (`*T`) are `Option T`; `nil` is `none`.
* `int64` values are `Int` (the code only copies and compares them).
* A value of the plugin framework (`types.String`, `types.Int64`, `types.Bool`,
  `types.Object`) is a three-state `attr.Value`: null, unknown or known.
* The generated SDK client is a record of four response functions, one per HTTP
  verb; every invocation is appended to an explicit call log that is threaded
  through the client methods and the lifecycle operations.
-/

set_option linter.unusedVariables false

/-! ## Plugin-framework values -/

/-- Three-state value of the plugin framework: `ValueStateNull`,
`ValueStateUnknown`, `ValueStateKnown` (with the Go value). -/
inductive attr.Value (α : Type) where
  | null : attr.Value α
  | unknown : attr.Value α
  | known (value : α) : attr.Value α
  deriving DecidableEq, Repr

abbrev basetypes.StringValue := attr.Value String
abbrev basetypes.Int64Value := attr.Value Int
abbrev basetypes.BoolValue := attr.Value Bool
/-- An object value whose attribute types are fixed by the schema; `α` is the
record of its attribute values. -/
abbrev basetypes.ObjectValue (α : Type) := attr.Value α

namespace attr.Value

/-- Framework `IsNull`: the state is `ValueStateNull`. -/
def IsNull {α : Type} : attr.Value α → Bool
  | null => true
  | _ => false

/-- Framework `Equal`: same state and, when known, the same value (for an object:
the same attribute values). -/
def Equal {α : Type} [DecidableEq α] (a b : attr.Value α) : Bool :=
  decide (a = b)

/-- Framework `ValueString`: the known value, `""` for null or unknown. -/
def ValueString : basetypes.StringValue → String
  | known v => v
  | _ => ""

/-- Framework `ValueInt64`: the known value, `0` for null or unknown. -/
def ValueInt64 : basetypes.Int64Value → Int
  | known v => v
  | _ => 0

/-- Framework `ValueBool`: the known value, `false` for null or unknown. -/
def ValueBool : basetypes.BoolValue → Bool
  | known v => v
  | _ => false

/-- Framework `ValueStringPointer`: `nil` for null, else a pointer to the value
(to `""` for unknown). -/
def ValueStringPointer (s : basetypes.StringValue) : Option String :=
  if s.IsNull then none else some s.ValueString

/-- Framework `ValueInt64Pointer`: `nil` for null, else a pointer to the value
(to `0` for unknown). -/
def ValueInt64Pointer (i : basetypes.Int64Value) : Option Int :=
  if i.IsNull then none else some i.ValueInt64

/-- Framework `ValueBoolPointer`: `nil` for null, else a pointer to the value
(to `false` for unknown). -/
def ValueBoolPointer (b : basetypes.BoolValue) : Option Bool :=
  if b.IsNull then none else some b.ValueBool

end attr.Value

/-- Framework `types.StringPointerValue`, `types.Int64PointerValue`,
`types.BoolPointerValue`: null for `nil`, else the known pointee. -/
def types.PointerValue {α : Type} : Option α → attr.Value α
  | none => attr.Value.null
  | some v => attr.Value.known v

/-- One error diagnostic: summary and detail. -/
structure diag.Diagnostic where
  Summary : String
  Detail : String
  deriving DecidableEq, Repr

/-- Framework `ObjectValue.As(ctx, &target, basetypes.ObjectAsOptions{})` into a
struct of framework values: a known object is copied; with the default options a
null or an unknown object is a conversion error. -/
def basetypes.ObjectValue.As {α : Type} (o : basetypes.ObjectValue α) :
    Except diag.Diagnostic α :=
  match o with
  | attr.Value.known v => Except.ok v
  | attr.Value.null =>
      Except.error ⟨"Value Conversion Error", "unhandled null value"⟩
  | attr.Value.unknown =>
      Except.error ⟨"Value Conversion Error", "unhandled unknown value"⟩

/-! ## Wire types of the generated SDK (`fb_sdk`), restricted to the fields the
repository reads or writes -/

namespace fb

structure Reference where
  Name : Option String := none
  deriving DecidableEq, Repr

structure ReferenceWritable where
  Name : Option String := none
  deriving DecidableEq, Repr

structure Nfs where
  V3Enabled : Option Bool := none
  V41Enabled : Option Bool := none
  Rules : Option String := none
  deriving DecidableEq, Repr

structure NfsPatch where
  V3Enabled : Option Bool := none
  V41Enabled : Option Bool := none
  Rules : Option String := none
  deriving DecidableEq, Repr

structure Smb where
  Enabled : Option Bool := none
  ContinuousAvailabilityEnabled : Option Bool := none
  ClientPolicy : Option ReferenceWritable := none
  SharePolicy : Option ReferenceWritable := none
  deriving DecidableEq, Repr

structure SmbPost where
  Enabled : Option Bool := none
  ContinuousAvailabilityEnabled : Option Bool := none
  ClientPolicy : Option ReferenceWritable := none
  SharePolicy : Option ReferenceWritable := none
  deriving DecidableEq, Repr

structure MultiProtocol where
  AccessControlStyle : Option String := none
  SafeguardAcls : Option Bool := none
  deriving DecidableEq, Repr

/-- Wire record of a file system as returned by the API. -/
structure FileSystem where
  Id : Option String := none
  Name : Option String := none
  Provisioned : Option Int := none
  HardLimitEnabled : Option Bool := none
  DefaultGroupQuota : Option Int := none
  DefaultUserQuota : Option Int := none
  SnapshotDirectoryEnabled : Option Bool := none
  Writable : Option Bool := none
  PromotionStatus : Option String := none
  Created : Option Int := none
  Destroyed : Option Bool := none
  TimeRemaining : Option Int := none
  Nfs : Option Nfs := none
  Smb : Option Smb := none
  MultiProtocol : Option MultiProtocol := none
  QosPolicy : Option Reference := none
  deriving DecidableEq, Repr

/-- Payload of the create call. -/
structure FileSystemPost where
  Provisioned : Option Int := none
  HardLimitEnabled : Option Bool := none
  DefaultGroupQuota : Option Int := none
  DefaultUserQuota : Option Int := none
  SnapshotDirectoryEnabled : Option Bool := none
  Writable : Option Bool := none
  RequestedPromotionState : Option String := none
  Nfs : Option Nfs := none
  Smb : Option SmbPost := none
  QosPolicy : Option Reference := none
  deriving DecidableEq, Repr

/-- Payload of the patch call. `Name` and `MultiProtocol` are members of the wire
type that the repository never assigns. -/
@[ext] structure FileSystemPatch where
  Name : Option String := none
  Provisioned : Option Int := none
  HardLimitEnabled : Option Bool := none
  DefaultGroupQuota : Option Int := none
  DefaultUserQuota : Option Int := none
  SnapshotDirectoryEnabled : Option Bool := none
  Writable : Option Bool := none
  RequestedPromotionState : Option String := none
  Destroyed : Option Bool := none
  Nfs : Option NfsPatch := none
  Smb : Option Smb := none
  MultiProtocol : Option MultiProtocol := none
  QosPolicy : Option Reference := none
  deriving DecidableEq, Repr

/-- Decoded `200` body of the get, post and patch calls: `Items *[]FileSystem`. -/
structure FileSystemResponse where
  Items : Option (List FileSystem) := none
  deriving DecidableEq, Repr

/-- Response wrapper of the get, post and patch calls: `StatusCode()`, the status
text and raw body used in error messages, and `JSON200`. -/
structure ApiResponse where
  StatusCode : Nat
  Status : String
  Body : String
  JSON200 : Option FileSystemResponse
  deriving DecidableEq, Repr

/-- Response wrapper of the delete call (no decoded body is read). -/
structure DeleteResponse where
  StatusCode : Nat
  Status : String
  Body : String
  deriving DecidableEq, Repr

/-- One invocation of the generated SDK client, with its `Names` parameter and
payload. -/
inductive Call where
  | GetApi217FileSystems (names : List String) : Call
  | PostApi217FileSystems (names : List String) (body : FileSystemPost) : Call
  | PatchApi217FileSystems (names : List String) (body : FileSystemPatch) : Call
  | DeleteApi217FileSystems (names : List String) : Call
  deriving DecidableEq, Repr

/-- The generated `ClientWithResponses`: for each verb, the transport error
(`err.Error()`) or the response. -/
structure ClientWithResponses where
  GetApi217FileSystemsWithResponse : List String → Except String ApiResponse
  PostApi217FileSystemsWithResponse :
    List String → FileSystemPost → Except String ApiResponse
  PatchApi217FileSystemsWithResponse :
    List String → FileSystemPatch → Except String ApiResponse
  DeleteApi217FileSystemsWithResponse : List String → Except String DeleteResponse

end fb

/-- Go `http.StatusOK`. -/
def http.StatusOK : Nat := 200

/-! ## `internal/client/client.go` -/

namespace client

/-- The client embeds the generated `ClientWithResponses`. -/
structure Client where
  ClientWithResponses : fb.ClientWithResponses

/-- Source `newApiError`: the uniform message for a non-200 response. -/
def newApiError (op : String) (status : String) (body : String) : String :=
  "API Error during " ++ op ++ ": status " ++ status ++ ", body: " ++ body

/-- Source `Client.GetFileSystemByName`. The result is `(record or nil, error)`;
the call made is appended to `log`. -/
def Client.GetFileSystemByName (c : Client) (name : String) (log : List fb.Call) :
    Except String (Option fb.FileSystem) × List fb.Call :=
  let params := [name]
  let log := log ++ [fb.Call.GetApi217FileSystems params]
  match c.ClientWithResponses.GetApi217FileSystemsWithResponse params with
  | Except.error err => (Except.error ("failed to get file system: " ++ err), log)
  | Except.ok resp =>
    if resp.StatusCode ≠ http.StatusOK then
      (Except.error (newApiError "GetFileSystem" resp.Status resp.Body), log)
    else
      match resp.JSON200 with
      | none => (Except.ok none, log)
      | some json200 =>
        match json200.Items with
        | none => (Except.ok none, log)
        | some [] => (Except.ok none, log)
        | some (item :: _) => (Except.ok (some item), log)

/-- Source `Client.CreateFileSystem`. -/
def Client.CreateFileSystem (c : Client) (name : String) (fs : fb.FileSystemPost)
    (log : List fb.Call) : Except String fb.FileSystem × List fb.Call :=
  let params := [name]
  let log := log ++ [fb.Call.PostApi217FileSystems params fs]
  match c.ClientWithResponses.PostApi217FileSystemsWithResponse params fs with
  | Except.error err => (Except.error ("failed to create file system: " ++ err), log)
  | Except.ok resp =>
    if resp.StatusCode ≠ http.StatusOK then
      (Except.error (newApiError "CreateFileSystem" resp.Status resp.Body), log)
    else
      match resp.JSON200 with
      | none => (Except.error "API did not return created file system in response", log)
      | some json200 =>
        match json200.Items with
        | none => (Except.error "API did not return created file system in response", log)
        | some [] => (Except.error "API did not return created file system in response", log)
        | some (item :: _) => (Except.ok item, log)

/-- Source `Client.UpdateFileSystem`. -/
def Client.UpdateFileSystem (c : Client) (name : String) (fs : fb.FileSystemPatch)
    (log : List fb.Call) : Except String fb.FileSystem × List fb.Call :=
  let params := [name]
  let log := log ++ [fb.Call.PatchApi217FileSystems params fs]
  match c.ClientWithResponses.PatchApi217FileSystemsWithResponse params fs with
  | Except.error err => (Except.error ("failed to update file system: " ++ err), log)
  | Except.ok resp =>
    if resp.StatusCode ≠ http.StatusOK then
      (Except.error (newApiError "UpdateFileSystem" resp.Status resp.Body), log)
    else
      match resp.JSON200 with
      | none => (Except.error "API did not return updated file system in response", log)
      | some json200 =>
        match json200.Items with
        | none => (Except.error "API did not return updated file system in response", log)
        | some [] => (Except.error "API did not return updated file system in response", log)
        | some (item :: _) => (Except.ok item, log)

/-- Source `Client.EradicateFileSystem`: `none` is the `nil` error. -/
def Client.EradicateFileSystem (c : Client) (name : String) (log : List fb.Call) :
    Option String × List fb.Call :=
  let params := [name]
  let log := log ++ [fb.Call.DeleteApi217FileSystems params]
  match c.ClientWithResponses.DeleteApi217FileSystemsWithResponse params with
  | Except.error err => (some ("failed to eradicate file system: " ++ err), log)
  | Except.ok resp =>
    if resp.StatusCode ≠ http.StatusOK then
      (some (newApiError "EradicateFileSystem" resp.Status resp.Body), log)
    else (none, log)

end client

/-! ## `internal/provider/resource_file_system.go` -/

namespace provider

structure nfsModel where
  V3Enabled : basetypes.BoolValue := attr.Value.null
  V41Enabled : basetypes.BoolValue := attr.Value.null
  Rules : basetypes.StringValue := attr.Value.null
  deriving DecidableEq, Repr

structure smbModel where
  Enabled : basetypes.BoolValue := attr.Value.null
  ContinuousAvailabilityEnabled : basetypes.BoolValue := attr.Value.null
  ClientPolicyName : basetypes.StringValue := attr.Value.null
  SharePolicyName : basetypes.StringValue := attr.Value.null
  deriving DecidableEq, Repr

structure multiProtocolModel where
  AccessControlStyle : basetypes.StringValue := attr.Value.null
  SafeguardAcls : basetypes.BoolValue := attr.Value.null
  deriving DecidableEq, Repr

/-- Source `fileSystemResourceModel`; the Go zero value of every member is null. -/
structure fileSystemResourceModel where
  ID : basetypes.StringValue := attr.Value.null
  Name : basetypes.StringValue := attr.Value.null
  Provisioned : basetypes.Int64Value := attr.Value.null
  HardLimitEnabled : basetypes.BoolValue := attr.Value.null
  DefaultGroupQuota : basetypes.Int64Value := attr.Value.null
  DefaultUserQuota : basetypes.Int64Value := attr.Value.null
  SnapshotDirectoryEnabled : basetypes.BoolValue := attr.Value.null
  Writable : basetypes.BoolValue := attr.Value.null
  RequestedPromotionState : basetypes.StringValue := attr.Value.null
  QosPolicyName : basetypes.StringValue := attr.Value.null
  Created : basetypes.Int64Value := attr.Value.null
  Destroyed : basetypes.BoolValue := attr.Value.null
  TimeRemaining : basetypes.Int64Value := attr.Value.null
  Nfs : basetypes.ObjectValue nfsModel := attr.Value.null
  Smb : basetypes.ObjectValue smbModel := attr.Value.null
  MultiProtocol : basetypes.ObjectValue multiProtocolModel := attr.Value.null
  deriving DecidableEq, Repr

/-- Source `mapFileSystemToModel`: overwrites the members of `model` from the wire
record `fs` and returns the updated model. -/
def mapFileSystemToModel (fs : fb.FileSystem) (model : fileSystemResourceModel) :
    fileSystemResourceModel :=
  let model := { model with ID := types.PointerValue fs.Id }
  let model := { model with Name := types.PointerValue fs.Name }
  let model := { model with Provisioned := types.PointerValue fs.Provisioned }
  let model := { model with HardLimitEnabled := types.PointerValue fs.HardLimitEnabled }
  let model := { model with DefaultGroupQuota := types.PointerValue fs.DefaultGroupQuota }
  let model := { model with DefaultUserQuota := types.PointerValue fs.DefaultUserQuota }
  let model := { model with
    SnapshotDirectoryEnabled := types.PointerValue fs.SnapshotDirectoryEnabled }
  let model := { model with Writable := types.PointerValue fs.Writable }
  let model := { model with
    RequestedPromotionState := types.PointerValue fs.PromotionStatus }
  let model := { model with Created := types.PointerValue fs.Created }
  let model := { model with Destroyed := types.PointerValue fs.Destroyed }
  let model := { model with TimeRemaining := types.PointerValue fs.TimeRemaining }
  let model :=
    match fs.Nfs with
    | some nfs =>
      if nfs.V3Enabled ≠ none ∨ nfs.V41Enabled ≠ none then
        let nfsObject : nfsModel :=
          { V3Enabled := types.PointerValue nfs.V3Enabled
            V41Enabled := types.PointerValue nfs.V41Enabled
            Rules := types.PointerValue nfs.Rules }
        { model with Nfs := attr.Value.known nfsObject }
      else { model with Nfs := attr.Value.null }
    | none => { model with Nfs := attr.Value.null }
  let model :=
    match fs.Smb with
    | some smb =>
      if smb.Enabled = some true then
        let clientPolicyName : basetypes.StringValue :=
          match smb.ClientPolicy with
          | some ref => types.PointerValue ref.Name
          | none => attr.Value.null
        let sharePolicyName : basetypes.StringValue :=
          match smb.SharePolicy with
          | some ref => types.PointerValue ref.Name
          | none => attr.Value.null
        let smbObject : smbModel :=
          { Enabled := types.PointerValue smb.Enabled
            ContinuousAvailabilityEnabled :=
              types.PointerValue smb.ContinuousAvailabilityEnabled
            ClientPolicyName := clientPolicyName
            SharePolicyName := sharePolicyName }
        { model with Smb := attr.Value.known smbObject }
      else { model with Smb := attr.Value.null }
    | none => { model with Smb := attr.Value.null }
  let model :=
    match fs.MultiProtocol with
    | some mp =>
      let mpObject : multiProtocolModel :=
        { AccessControlStyle := types.PointerValue mp.AccessControlStyle
          SafeguardAcls := types.PointerValue mp.SafeguardAcls }
      { model with MultiProtocol := attr.Value.known mpObject }
    | none => { model with MultiProtocol := attr.Value.null }
  let model :=
    match fs.QosPolicy with
    | some qos => { model with QosPolicyName := types.PointerValue qos.Name }
    | none => { model with QosPolicyName := attr.Value.null }
  model

/-- What an operation did to the response state: left it as the host
initialised it, `State.RemoveResource`, or `State.Set` with a model. -/
inductive StateWrite where
  | untouched : StateWrite
  | RemoveResource : StateWrite
  | Set (model : fileSystemResourceModel) : StateWrite
  deriving DecidableEq, Repr

/-- Observable result of `Create`: the final value of the local `fsToCreate`,
the error diagnostics, the state write and the call log. -/
structure CreateRun where
  fsToCreate : fb.FileSystemPost
  Diagnostics : List diag.Diagnostic
  State : StateWrite
  log : List fb.Call
  deriving DecidableEq, Repr

/-- Source `Create`, the `if !plan.Nfs.IsNull()` statement: the conversion error
(early return) or the updated `fsToCreate`. -/
def Create.nfs (plan : fileSystemResourceModel) (fsToCreate : fb.FileSystemPost) :
    Except diag.Diagnostic fb.FileSystemPost :=
  if !plan.Nfs.IsNull then
    match basetypes.ObjectValue.As plan.Nfs with
    | Except.error d => Except.error d
    | Except.ok nfsData =>
      Except.ok { fsToCreate with
        Nfs := some
          { V3Enabled := nfsData.V3Enabled.ValueBoolPointer
            V41Enabled := nfsData.V41Enabled.ValueBoolPointer
            Rules := nfsData.Rules.ValueStringPointer } }
  else Except.ok fsToCreate

/-- Source `Create`, the `if !plan.Smb.IsNull()` statement. -/
def Create.smb (plan : fileSystemResourceModel) (fsToCreate : fb.FileSystemPost) :
    Except diag.Diagnostic fb.FileSystemPost :=
  if !plan.Smb.IsNull then
    match basetypes.ObjectValue.As plan.Smb with
    | Except.error d => Except.error d
    | Except.ok smbData =>
      let smb : fb.SmbPost :=
        { Enabled := smbData.Enabled.ValueBoolPointer
          ContinuousAvailabilityEnabled :=
            smbData.ContinuousAvailabilityEnabled.ValueBoolPointer }
      let smb : fb.SmbPost :=
        if !smbData.ClientPolicyName.IsNull then
          { smb with ClientPolicy := some { Name := smbData.ClientPolicyName.ValueStringPointer } }
        else smb
      let smb : fb.SmbPost :=
        if !smbData.SharePolicyName.IsNull then
          { smb with SharePolicy := some { Name := smbData.SharePolicyName.ValueStringPointer } }
        else smb
      Except.ok { fsToCreate with Smb := some smb }
  else Except.ok fsToCreate

/-- Source `fileSystemResource.Create`, run on the client `c` with the plan read
from the request and the call log so far. -/
def Create (c : client.Client) (plan : fileSystemResourceModel) (log : List fb.Call) :
    CreateRun :=
  let fsToCreate : fb.FileSystemPost :=
    { Provisioned := plan.Provisioned.ValueInt64Pointer
      HardLimitEnabled := plan.HardLimitEnabled.ValueBoolPointer
      DefaultGroupQuota := plan.DefaultGroupQuota.ValueInt64Pointer
      DefaultUserQuota := plan.DefaultUserQuota.ValueInt64Pointer
      SnapshotDirectoryEnabled := plan.SnapshotDirectoryEnabled.ValueBoolPointer
      Writable := plan.Writable.ValueBoolPointer
      RequestedPromotionState := plan.RequestedPromotionState.ValueStringPointer }
  match Create.nfs plan fsToCreate with
  | Except.error d =>
    { fsToCreate := fsToCreate, Diagnostics := [d], State := StateWrite.untouched, log := log }
  | Except.ok fsToCreate =>
    match Create.smb plan fsToCreate with
    | Except.error d =>
      { fsToCreate := fsToCreate, Diagnostics := [d], State := StateWrite.untouched,
        log := log }
    | Except.ok fsToCreate =>
      let fsToCreate : fb.FileSystemPost :=
        if !plan.QosPolicyName.IsNull then
          { fsToCreate with QosPolicy := some { Name := plan.QosPolicyName.ValueStringPointer } }
        else fsToCreate
      match c.CreateFileSystem plan.Name.ValueString fsToCreate log with
      | (Except.error err, log) =>
        { fsToCreate := fsToCreate
          Diagnostics :=
            [⟨"Error Creating File System", "Could not create file system: " ++ err⟩]
          State := StateWrite.untouched
          log := log }
      | (Except.ok createdFS, log) =>
        { fsToCreate := fsToCreate
          Diagnostics := []
          State := StateWrite.Set (mapFileSystemToModel createdFS plan)
          log := log }

/-- Observable result of `Read` and `Delete`: the error diagnostics, the state
write and the call log. -/
structure Run where
  Diagnostics : List diag.Diagnostic
  State : StateWrite
  log : List fb.Call
  deriving DecidableEq, Repr

/-- Source `fileSystemResource.Read`, run with the prior state read from the
request. -/
def Read (c : client.Client) (state : fileSystemResourceModel) (log : List fb.Call) : Run :=
  match c.GetFileSystemByName state.Name.ValueString log with
  | (Except.error err, log) =>
    { Diagnostics :=
        [⟨"Error Reading File System",
          "Could not read file system " ++ state.Name.ValueString ++ ": " ++ err⟩]
      State := StateWrite.untouched
      log := log }
  | (Except.ok none, log) =>
    { Diagnostics := [], State := StateWrite.RemoveResource, log := log }
  | (Except.ok (some fs), log) =>
    if fs.Destroyed = some true then
      { Diagnostics := [], State := StateWrite.RemoveResource, log := log }
    else
      { Diagnostics := []
        State := StateWrite.Set (mapFileSystemToModel fs state)
        log := log }

/-- The locals of `Update` that its statements mutate, with the diagnostics
appended so far. -/
@[ext] structure updateLocals where
  fsToUpdate : fb.FileSystemPatch := {}
  isPatchNeeded : Bool := false
  Diagnostics : List diag.Diagnostic := []
  deriving DecidableEq, Repr

/-- Source `Update`, from `fsToUpdate := fb.FileSystemPatch{}` through the
`QosPolicyName` statement: the eight scalar comparisons in source order. -/
def Update.scalars (plan state : fileSystemResourceModel) : updateLocals :=
  let l : updateLocals := { fsToUpdate := {}, isPatchNeeded := false }
  let l : updateLocals :=
    if !plan.Provisioned.Equal state.Provisioned then
      { l with
        isPatchNeeded := true
        fsToUpdate := { l.fsToUpdate with Provisioned := plan.Provisioned.ValueInt64Pointer } }
    else l
  let l : updateLocals :=
    if !plan.HardLimitEnabled.Equal state.HardLimitEnabled then
      { l with
        isPatchNeeded := true
        fsToUpdate := { l.fsToUpdate with
          HardLimitEnabled := plan.HardLimitEnabled.ValueBoolPointer } }
    else l
  let l : updateLocals :=
    if !plan.DefaultGroupQuota.Equal state.DefaultGroupQuota then
      { l with
        isPatchNeeded := true
        fsToUpdate := { l.fsToUpdate with
          DefaultGroupQuota := plan.DefaultGroupQuota.ValueInt64Pointer } }
    else l
  let l : updateLocals :=
    if !plan.DefaultUserQuota.Equal state.DefaultUserQuota then
      { l with
        isPatchNeeded := true
        fsToUpdate := { l.fsToUpdate with
          DefaultUserQuota := plan.DefaultUserQuota.ValueInt64Pointer } }
    else l
  let l : updateLocals :=
    if !plan.SnapshotDirectoryEnabled.Equal state.SnapshotDirectoryEnabled then
      { l with
        isPatchNeeded := true
        fsToUpdate := { l.fsToUpdate with
          SnapshotDirectoryEnabled := plan.SnapshotDirectoryEnabled.ValueBoolPointer } }
    else l
  let l : updateLocals :=
    if !plan.Writable.Equal state.Writable then
      { l with
        isPatchNeeded := true
        fsToUpdate := { l.fsToUpdate with Writable := plan.Writable.ValueBoolPointer } }
    else l
  let l : updateLocals :=
    if !plan.RequestedPromotionState.Equal state.RequestedPromotionState then
      { l with
        isPatchNeeded := true
        fsToUpdate := { l.fsToUpdate with
          RequestedPromotionState := plan.RequestedPromotionState.ValueStringPointer } }
    else l
  let l : updateLocals :=
    if !plan.QosPolicyName.Equal state.QosPolicyName then
      if plan.QosPolicyName.IsNull then
        { l with
          isPatchNeeded := true
          fsToUpdate := { l.fsToUpdate with
            QosPolicy := some { Name := (attr.Value.known "").ValueStringPointer } } }
      else
        { l with
          isPatchNeeded := true
          fsToUpdate := { l.fsToUpdate with
            QosPolicy := some { Name := plan.QosPolicyName.ValueStringPointer } } }
    else l
  l

/-- Source `Update`, the `if !plan.Nfs.Equal(state.Nfs)` statement: `error` is the
early return after a failed conversion, with the locals at that point. -/
def Update.nfs (plan state : fileSystemResourceModel) (l : updateLocals) :
    Except updateLocals updateLocals :=
  if !plan.Nfs.Equal state.Nfs then
    let l : updateLocals := { l with isPatchNeeded := true }
    if !plan.Nfs.IsNull then
      match basetypes.ObjectValue.As plan.Nfs with
      | Except.error d => Except.error { l with Diagnostics := l.Diagnostics ++ [d] }
      | Except.ok planNfs =>
        Except.ok { l with
          fsToUpdate := { l.fsToUpdate with
            Nfs := some
              { V3Enabled := planNfs.V3Enabled.ValueBoolPointer
                V41Enabled := planNfs.V41Enabled.ValueBoolPointer
                Rules := planNfs.Rules.ValueStringPointer } } }
    else
      Except.ok { l with
        fsToUpdate := { l.fsToUpdate with
          Nfs := some
            { V3Enabled := (attr.Value.known false).ValueBoolPointer
              V41Enabled := (attr.Value.known false).ValueBoolPointer
              Rules := (attr.Value.known "").ValueStringPointer } } }
  else Except.ok l

/-- Source `Update`, the `if !plan.Smb.Equal(state.Smb)` statement. -/
def Update.smb (plan state : fileSystemResourceModel) (l : updateLocals) :
    Except updateLocals updateLocals :=
  if !plan.Smb.Equal state.Smb then
    let l : updateLocals := { l with isPatchNeeded := true }
    if !plan.Smb.IsNull then
      match basetypes.ObjectValue.As plan.Smb with
      | Except.error d => Except.error { l with Diagnostics := l.Diagnostics ++ [d] }
      | Except.ok planSmb =>
        let smb : fb.Smb :=
          { Enabled := planSmb.Enabled.ValueBoolPointer
            ContinuousAvailabilityEnabled :=
              planSmb.ContinuousAvailabilityEnabled.ValueBoolPointer }
        let smb : fb.Smb :=
          if !planSmb.ClientPolicyName.IsNull then
            { smb with
              ClientPolicy := some { Name := planSmb.ClientPolicyName.ValueStringPointer } }
          else smb
        let smb : fb.Smb :=
          if !planSmb.SharePolicyName.IsNull then
            { smb with
              SharePolicy := some { Name := planSmb.SharePolicyName.ValueStringPointer } }
          else smb
        Except.ok { l with fsToUpdate := { l.fsToUpdate with Smb := some smb } }
    else
      Except.ok { l with
        fsToUpdate := { l.fsToUpdate with
          Smb := some { Enabled := (attr.Value.known false).ValueBoolPointer } } }
  else Except.ok l

/-- Observable result of `Update`: the final value of the local `fsToUpdate` and
of `isPatchNeeded`, the error diagnostics, the state write and the call log. -/
structure UpdateRun where
  fsToUpdate : fb.FileSystemPatch
  isPatchNeeded : Bool
  Diagnostics : List diag.Diagnostic
  State : StateWrite
  log : List fb.Call
  deriving DecidableEq, Repr

/-- Source `fileSystemResource.Update`, run with the plan and the prior state
read from the request. -/
def Update (c : client.Client) (plan state : fileSystemResourceModel)
    (log : List fb.Call) : UpdateRun :=
  let l := Update.scalars plan state
  match Update.nfs plan state l with
  | Except.error l =>
    { fsToUpdate := l.fsToUpdate, isPatchNeeded := l.isPatchNeeded
      Diagnostics := l.Diagnostics, State := StateWrite.untouched, log := log }
  | Except.ok l =>
    match Update.smb plan state l with
    | Except.error l =>
      { fsToUpdate := l.fsToUpdate, isPatchNeeded := l.isPatchNeeded
        Diagnostics := l.Diagnostics, State := StateWrite.untouched, log := log }
    | Except.ok l =>
      if !l.isPatchNeeded then
        { fsToUpdate := l.fsToUpdate, isPatchNeeded := l.isPatchNeeded
          Diagnostics := l.Diagnostics, State := StateWrite.untouched, log := log }
      else
        match c.UpdateFileSystem plan.Name.ValueString l.fsToUpdate log with
        | (Except.error err, log) =>
          { fsToUpdate := l.fsToUpdate, isPatchNeeded := l.isPatchNeeded
            Diagnostics := l.Diagnostics ++
              [⟨"Error Updating File System", "Could not update file system: " ++ err⟩]
            State := StateWrite.untouched
            log := log }
        | (Except.ok updatedFS, log) =>
          { fsToUpdate := l.fsToUpdate, isPatchNeeded := l.isPatchNeeded
            Diagnostics := l.Diagnostics
            State := StateWrite.Set (mapFileSystemToModel updatedFS plan)
            log := log }

/-- Source `Delete`, from `Step 2: Eradicating the file system` to the end. -/
def Delete.eradicate (c : client.Client) (fsName : String) (log : List fb.Call) : Run :=
  match c.EradicateFileSystem fsName log with
  | (some err, log) =>
    { Diagnostics :=
        [⟨"Error Eradicating File System",
          "Could not eradicate file system " ++ fsName ++ ": " ++ err⟩]
      State := StateWrite.untouched
      log := log }
  | (none, log) => { Diagnostics := [], State := StateWrite.untouched, log := log }

/-- Source `fileSystemResource.Delete`, run with the prior state read from the
request. -/
def Delete (c : client.Client) (state : fileSystemResourceModel) (log : List fb.Call) :
    Run :=
  let fsName := state.Name.ValueString
  match c.GetFileSystemByName fsName log with
  | (Except.error err, log) =>
    { Diagnostics :=
        [⟨"Error Checking File System on Delete",
          "Could not read file system " ++ fsName ++ " before deletion: " ++ err⟩]
      State := StateWrite.untouched
      log := log }
  | (Except.ok none, log) =>
    { Diagnostics := [], State := StateWrite.untouched, log := log }
  | (Except.ok (some fs), log) =>
    if fs.Destroyed = none ∨ fs.Destroyed = some false then
      let shouldDestroy := true
      let shouldDisable := false
      let patch : fb.FileSystemPatch :=
        { Destroyed := some shouldDestroy
          Nfs := some { V3Enabled := some shouldDisable, V41Enabled := some shouldDisable }
          Smb := some { Enabled := some shouldDisable } }
      match c.UpdateFileSystem fsName patch log with
      | (Except.error err, log) =>
        { Diagnostics :=
            [⟨"Error Marking File System For Deletion",
              "Could not disable protocols and mark file system " ++ fsName ++
                " for deletion: " ++ err⟩]
          State := StateWrite.untouched
          log := log }
      | (Except.ok _, log) => Delete.eradicate c fsName log
    else Delete.eradicate c fsName log

end provider

/-! ## `client.New` and `internal/provider/provider.go` -/

/-- Go `strings.HasPrefix`. -/
def strings.HasPrefix (s : String) (pre : String) : Bool :=
  pre.isPrefixOf s

/-- Answer to the login request as read by `client.New`: status code, status text
and the `x-auth-token` response header (`""` when the header is absent). -/
structure http.Response where
  StatusCode : Nat
  Status : String
  XAuthToken : String
  deriving DecidableEq, Repr

/-- The network and SDK constructor as seen by `client.New`: the error of
`http.NewRequestWithContext` for the login URL; the outcome of `loginClient.Do` for
the login URL, the `api-token` header and the `InsecureSkipVerify` setting; and the
outcome of `fb.NewClientWithResponses` for the endpoint, with the session token
installed as request editor and the same transport. -/
structure client.Network where
  NewRequest : String → Option String
  Do : String → String → Bool → Except String http.Response
  NewClientWithResponses : String → String → Bool → Except String fb.ClientWithResponses

/-- Source `client.New`. -/
def client.New (net : client.Network) (endpoint : String) (apiToken : String)
    (insecure : Bool) : Except String client.Client :=
  let endpoint :=
    if !strings.HasPrefix endpoint "https://" then "https://" ++ endpoint else endpoint
  let loginURL := endpoint ++ "/api/login"
  match net.NewRequest loginURL with
  | some err => Except.error ("failed to create login request: " ++ err)
  | none =>
    match net.Do loginURL apiToken insecure with
    | Except.error err => Except.error ("failed to execute login request: " ++ err)
    | Except.ok resp =>
      if resp.StatusCode ≠ http.StatusOK then
        Except.error ("API login failed with status " ++ resp.Status)
      else
        let sessionToken := resp.XAuthToken
        if sessionToken = "" then
          Except.error "API login succeeded but did not return an x-auth-token header"
        else
          match net.NewClientWithResponses endpoint sessionToken insecure with
          | Except.error err =>
            Except.error ("failed to create fb sdk client with responses: " ++ err)
          | Except.ok clientWithResponses =>
            Except.ok { ClientWithResponses := clientWithResponses }

namespace provider

/-- Source `flashbladeProviderModel`. -/
structure flashbladeProviderModel where
  Endpoint : basetypes.StringValue := attr.Value.null
  ApiToken : basetypes.StringValue := attr.Value.null
  Insecure : basetypes.BoolValue := attr.Value.null
  deriving DecidableEq, Repr

/-- Observable result of the provider `Configure`: the error diagnostics, the
arguments of every `client.New` invocation, and the client handed to resources
and data sources. -/
structure ConfigureRun where
  Diagnostics : List diag.Diagnostic
  newCalls : List (String × String × Bool)
  ResourceData : Option client.Client
  DataSourceData : Option client.Client

/-- Source `flashbladeProvider.Configure`, run with the environment `getenv`
(`os.Getenv`), the network `net` and the configuration read from the request. -/
def flashbladeProvider.Configure (getenv : String → String) (net : client.Network)
    (config : flashbladeProviderModel) : ConfigureRun :=
  let endpoint := getenv "FLASHBLADE_ENDPOINT"
  let apiToken := getenv "FLASHBLADE_API_TOKEN"
  let insecure := decide (getenv "FLASHBLADE_INSECURE" = "true")
  let endpoint := if !config.Endpoint.IsNull then config.Endpoint.ValueString else endpoint
  let apiToken := if !config.ApiToken.IsNull then config.ApiToken.ValueString else apiToken
  let insecure := if !config.Insecure.IsNull then config.Insecure.ValueBool else insecure
  let diagnostics : List diag.Diagnostic := []
  let diagnostics :=
    if endpoint = "" then
      diagnostics ++
        [⟨"Missing FlashBlade Endpoint",
          "Set the endpoint in the provider configuration or use the FLASHBLADE_ENDPOINT env var."⟩]
    else diagnostics
  let diagnostics :=
    if apiToken = "" then
      diagnostics ++
        [⟨"Missing FlashBlade API Token",
          "Set the api_token in the provider configuration or use the FLASHBLADE_API_TOKEN env var."⟩]
    else diagnostics
  if diagnostics ≠ [] then
    { Diagnostics := diagnostics, newCalls := [], ResourceData := none, DataSourceData := none }
  else
    match client.New net endpoint apiToken insecure with
    | Except.error err =>
      { Diagnostics :=
          diagnostics ++ [⟨"Unable to Create FlashBlade API Client", "Error: " ++ err⟩]
        newCalls := [(endpoint, apiToken, insecure)]
        ResourceData := none
        DataSourceData := none }
    | Except.ok fbClient =>
      { Diagnostics := diagnostics
        newCalls := [(endpoint, apiToken, insecure)]
        ResourceData := some fbClient
        DataSourceData := some fbClient }

end provider

/-! ## Fixtures for concrete evaluations -/

/-- A `200 OK` response whose decoded body carries `items`. -/
def fb.ok200 (items : List fb.FileSystem) : fb.ApiResponse :=
  { StatusCode := 200, Status := "200 OK", Body := "", JSON200 := some { Items := some items } }

/-- A client that answers every get, post and patch call with `200 OK` and the
single record `fs`, and every delete call with `200 OK`. -/
def client.fixedClient (fs : fb.FileSystem) : client.Client :=
  { ClientWithResponses :=
      { GetApi217FileSystemsWithResponse := fun _ => Except.ok (fb.ok200 [fs])
        PostApi217FileSystemsWithResponse := fun _ _ => Except.ok (fb.ok200 [fs])
        PatchApi217FileSystemsWithResponse := fun _ _ => Except.ok (fb.ok200 [fs])
        DeleteApi217FileSystemsWithResponse := fun _ =>
          Except.ok { StatusCode := 200, Status := "200 OK", Body := "" } } }

/-- A client whose every call fails in the transport. -/
def client.downClient : client.Client :=
  { ClientWithResponses :=
      { GetApi217FileSystemsWithResponse := fun _ => Except.error "connection refused"
        PostApi217FileSystemsWithResponse := fun _ _ => Except.error "connection refused"
        PatchApi217FileSystemsWithResponse := fun _ _ => Except.error "connection refused"
        DeleteApi217FileSystemsWithResponse := fun _ => Except.error "connection refused" } }

/-- A network on which the login succeeds with session token `tok` and the SDK
client of `c` is returned. -/
def client.fixedNetwork (tok : String) (c : client.Client) : client.Network :=
  { NewRequest := fun _ => none
    Do := fun _ _ _ => Except.ok { StatusCode := 200, Status := "200 OK", XAuthToken := tok }
    NewClientWithResponses := fun _ _ _ => Except.ok c.ClientWithResponses }

/-- An environment in which only the three provider variables are set. -/
def fixedEnv (endpoint : String) (apiToken : String) (insecure : String) : String → String :=
  fun name =>
    if name = "FLASHBLADE_ENDPOINT" then endpoint
    else if name = "FLASHBLADE_API_TOKEN" then apiToken
    else if name = "FLASHBLADE_INSECURE" then insecure
    else ""

/-! ## Auxiliary lemmas -/

namespace provider

@[simp] theorem attr_Equal_iff {α : Type} [DecidableEq α] (a b : attr.Value α) :
    a.Equal b = true ↔ a = b := by
  simp [attr.Value.Equal]

@[simp] theorem attr_Equal_false_iff {α : Type} [DecidableEq α] (a b : attr.Value α) :
    a.Equal b = false ↔ a ≠ b := by
  simp [attr.Value.Equal]

@[simp] theorem IsNull_null {α : Type} :
    (attr.Value.null : attr.Value α).IsNull = true := rfl

@[simp] theorem IsNull_unknown {α : Type} :
    (attr.Value.unknown : attr.Value α).IsNull = false := rfl

@[simp] theorem IsNull_known {α : Type} (v : α) : (attr.Value.known v).IsNull = false := rfl

/-- Field-by-field description of the locals after the eight scalar
comparisons of `Update`. -/
theorem Update_scalars_eq (plan state : fileSystemResourceModel) :
    Update.scalars plan state =
      { fsToUpdate :=
          { Provisioned :=
              if plan.Provisioned = state.Provisioned then none
              else plan.Provisioned.ValueInt64Pointer
            HardLimitEnabled :=
              if plan.HardLimitEnabled = state.HardLimitEnabled then none
              else plan.HardLimitEnabled.ValueBoolPointer
            DefaultGroupQuota :=
              if plan.DefaultGroupQuota = state.DefaultGroupQuota then none
              else plan.DefaultGroupQuota.ValueInt64Pointer
            DefaultUserQuota :=
              if plan.DefaultUserQuota = state.DefaultUserQuota then none
              else plan.DefaultUserQuota.ValueInt64Pointer
            SnapshotDirectoryEnabled :=
              if plan.SnapshotDirectoryEnabled = state.SnapshotDirectoryEnabled then none
              else plan.SnapshotDirectoryEnabled.ValueBoolPointer
            Writable :=
              if plan.Writable = state.Writable then none
              else plan.Writable.ValueBoolPointer
            RequestedPromotionState :=
              if plan.RequestedPromotionState = state.RequestedPromotionState then none
              else plan.RequestedPromotionState.ValueStringPointer
            QosPolicy :=
              if plan.QosPolicyName = state.QosPolicyName then none
              else some { Name := some plan.QosPolicyName.ValueString } }
        isPatchNeeded :=
          !decide (plan.Provisioned = state.Provisioned ∧
            plan.HardLimitEnabled = state.HardLimitEnabled ∧
            plan.DefaultGroupQuota = state.DefaultGroupQuota ∧
            plan.DefaultUserQuota = state.DefaultUserQuota ∧
            plan.SnapshotDirectoryEnabled = state.SnapshotDirectoryEnabled ∧
            plan.Writable = state.Writable ∧
            plan.RequestedPromotionState = state.RequestedPromotionState ∧
            plan.QosPolicyName = state.QosPolicyName)
        Diagnostics := [] } := by
  unfold Update.scalars
  ext : 1
  · ext : 1
    all_goals
      simp only [apply_ite updateLocals.fsToUpdate, apply_ite fb.FileSystemPatch.Name,
        apply_ite fb.FileSystemPatch.Provisioned, apply_ite fb.FileSystemPatch.HardLimitEnabled,
        apply_ite fb.FileSystemPatch.DefaultGroupQuota,
        apply_ite fb.FileSystemPatch.DefaultUserQuota,
        apply_ite fb.FileSystemPatch.SnapshotDirectoryEnabled,
        apply_ite fb.FileSystemPatch.Writable,
        apply_ite fb.FileSystemPatch.RequestedPromotionState,
        apply_ite fb.FileSystemPatch.Destroyed, apply_ite fb.FileSystemPatch.Nfs,
        apply_ite fb.FileSystemPatch.Smb, apply_ite fb.FileSystemPatch.MultiProtocol,
        apply_ite fb.FileSystemPatch.QosPolicy, ite_self]
    all_goals try simp
    all_goals
      cases plan.QosPolicyName <;>
        simp [attr.Value.ValueStringPointer, attr.Value.IsNull, attr.Value.ValueString]
  · simp only [apply_ite updateLocals.isPatchNeeded, ite_self]
    simp only [Bool.not_eq_true', Bool.if_true_left, decide_eq_false_iff_not, Bool.decide_and,
      Bool.not_and, attr_Equal_false_iff, ne_eq, decide_not, Bool.decide_eq_false,
      Bool.false_or, Bool.or_false]
    generalize decide (plan.Provisioned = state.Provisioned) = b1
    generalize decide (plan.HardLimitEnabled = state.HardLimitEnabled) = b2
    generalize decide (plan.DefaultGroupQuota = state.DefaultGroupQuota) = b3
    generalize decide (plan.DefaultUserQuota = state.DefaultUserQuota) = b4
    generalize decide (plan.SnapshotDirectoryEnabled = state.SnapshotDirectoryEnabled) = b5
    generalize decide (plan.Writable = state.Writable) = b6
    generalize decide (plan.RequestedPromotionState = state.RequestedPromotionState) = b7
    generalize decide (plan.QosPolicyName = state.QosPolicyName) = b8
    revert b1 b2 b3 b4 b5 b6 b7 b8
    decide
  · simp only [apply_ite updateLocals.Diagnostics, ite_self]

/-- The `Smb` member written by `mapFileSystemToModel`. -/
theorem mapFileSystemToModel_Smb (fs : fb.FileSystem) (model : fileSystemResourceModel) :
    (mapFileSystemToModel fs model).Smb =
      match fs.Smb with
      | some smb =>
        if smb.Enabled = some true then
          attr.Value.known
            { Enabled := types.PointerValue smb.Enabled
              ContinuousAvailabilityEnabled :=
                types.PointerValue smb.ContinuousAvailabilityEnabled
              ClientPolicyName :=
                match smb.ClientPolicy with
                | some ref => types.PointerValue ref.Name
                | none => attr.Value.null
              SharePolicyName :=
                match smb.SharePolicy with
                | some ref => types.PointerValue ref.Name
                | none => attr.Value.null }
        else attr.Value.null
      | none => attr.Value.null := by
  unfold mapFileSystemToModel
  cases fs.Nfs <;> cases fs.Smb <;> cases fs.MultiProtocol <;> cases fs.QosPolicy <;>
    simp only [] <;> split_ifs <;> rfl

theorem Update_nfs_of_eq (plan state : fileSystemResourceModel) (l : updateLocals)
    (h : plan.Nfs = state.Nfs) : Update.nfs plan state l = Except.ok l := by
  simp [Update.nfs, h]

theorem Update_nfs_of_null (plan state : fileSystemResourceModel) (l : updateLocals)
    (h : plan.Nfs ≠ state.Nfs) (hp : plan.Nfs = attr.Value.null) :
    Update.nfs plan state l =
      Except.ok { l with
        isPatchNeeded := true
        fsToUpdate := { l.fsToUpdate with
          Nfs := some { V3Enabled := some false, V41Enabled := some false, Rules := some "" } } } := by
  have h2 : ¬ attr.Value.null = state.Nfs := hp ▸ h
  simp [Update.nfs, hp, h2, attr.Value.ValueBoolPointer,
    attr.Value.ValueStringPointer, attr.Value.ValueBool, attr.Value.ValueString]

theorem Update_nfs_of_unknown (plan state : fileSystemResourceModel) (l : updateLocals)
    (h : plan.Nfs ≠ state.Nfs) (hp : plan.Nfs = attr.Value.unknown) :
    Update.nfs plan state l =
      Except.error { l with
        isPatchNeeded := true
        Diagnostics :=
          l.Diagnostics ++ [⟨"Value Conversion Error", "unhandled unknown value"⟩] } := by
  have h2 : ¬ attr.Value.unknown = state.Nfs := hp ▸ h
  simp [Update.nfs, hp, h2, basetypes.ObjectValue.As]

theorem Update_nfs_of_known (plan state : fileSystemResourceModel) (l : updateLocals)
    (planNfs : nfsModel) (h : plan.Nfs ≠ state.Nfs) (hp : plan.Nfs = attr.Value.known planNfs) :
    Update.nfs plan state l =
      Except.ok { l with
        isPatchNeeded := true
        fsToUpdate := { l.fsToUpdate with
          Nfs := some
            { V3Enabled := planNfs.V3Enabled.ValueBoolPointer
              V41Enabled := planNfs.V41Enabled.ValueBoolPointer
              Rules := planNfs.Rules.ValueStringPointer } } } := by
  have h2 : ¬ attr.Value.known planNfs = state.Nfs := hp ▸ h
  simp [Update.nfs, hp, h2, basetypes.ObjectValue.As]

theorem Update_smb_of_eq (plan state : fileSystemResourceModel) (l : updateLocals)
    (h : plan.Smb = state.Smb) : Update.smb plan state l = Except.ok l := by
  simp [Update.smb, h]

theorem Update_smb_of_null (plan state : fileSystemResourceModel) (l : updateLocals)
    (h : plan.Smb ≠ state.Smb) (hp : plan.Smb = attr.Value.null) :
    Update.smb plan state l =
      Except.ok { l with
        isPatchNeeded := true
        fsToUpdate := { l.fsToUpdate with Smb := some { Enabled := some false } } } := by
  have h2 : ¬ attr.Value.null = state.Smb := hp ▸ h
  simp [Update.smb, hp, h2, attr.Value.ValueBoolPointer,
    attr.Value.ValueBool]

theorem Update_smb_of_unknown (plan state : fileSystemResourceModel) (l : updateLocals)
    (h : plan.Smb ≠ state.Smb) (hp : plan.Smb = attr.Value.unknown) :
    Update.smb plan state l =
      Except.error { l with
        isPatchNeeded := true
        Diagnostics :=
          l.Diagnostics ++ [⟨"Value Conversion Error", "unhandled unknown value"⟩] } := by
  have h2 : ¬ attr.Value.unknown = state.Smb := hp ▸ h
  simp [Update.smb, hp, h2, basetypes.ObjectValue.As]

theorem Update_smb_of_known (plan state : fileSystemResourceModel) (l : updateLocals)
    (planSmb : smbModel) (h : plan.Smb ≠ state.Smb) (hp : plan.Smb = attr.Value.known planSmb) :
    Update.smb plan state l =
      Except.ok { l with
        isPatchNeeded := true
        fsToUpdate := { l.fsToUpdate with
          Smb := some
            { Enabled := planSmb.Enabled.ValueBoolPointer
              ContinuousAvailabilityEnabled :=
                planSmb.ContinuousAvailabilityEnabled.ValueBoolPointer
              ClientPolicy :=
                if planSmb.ClientPolicyName.IsNull then none
                else some { Name := planSmb.ClientPolicyName.ValueStringPointer }
              SharePolicy :=
                if planSmb.SharePolicyName.IsNull then none
                else some { Name := planSmb.SharePolicyName.ValueStringPointer } } } } := by
  have h2 : ¬ attr.Value.known planSmb = state.Smb := hp ▸ h
  cases h3 : attr.Value.IsNull planSmb.ClientPolicyName <;>
    cases h4 : attr.Value.IsNull planSmb.SharePolicyName <;>
    simp [Update.smb, hp, h2, basetypes.ObjectValue.As, h3, h4]


/-- The patch built by `Update`: the scalar members come from the eight scalar
comparisons, the `Nfs` and `Smb` members from the two block statements. -/
theorem Update_fsToUpdate (c : client.Client) (plan state : fileSystemResourceModel)
    (log : List fb.Call) :
    (Update c plan state log).fsToUpdate =
      { (Update.scalars plan state).fsToUpdate with
        Nfs :=
          if plan.Nfs = state.Nfs then none
          else
            match plan.Nfs with
            | attr.Value.null =>
              some { V3Enabled := some false, V41Enabled := some false, Rules := some "" }
            | attr.Value.unknown => none
            | attr.Value.known planNfs =>
              some
                { V3Enabled := planNfs.V3Enabled.ValueBoolPointer
                  V41Enabled := planNfs.V41Enabled.ValueBoolPointer
                  Rules := planNfs.Rules.ValueStringPointer }
        Smb :=
          if plan.Nfs ≠ state.Nfs ∧ plan.Nfs = attr.Value.unknown then none
          else if plan.Smb = state.Smb then none
          else
            match plan.Smb with
            | attr.Value.null => some { Enabled := some false }
            | attr.Value.unknown => none
            | attr.Value.known planSmb =>
              some
                { Enabled := planSmb.Enabled.ValueBoolPointer
                  ContinuousAvailabilityEnabled :=
                    planSmb.ContinuousAvailabilityEnabled.ValueBoolPointer
                  ClientPolicy :=
                    if planSmb.ClientPolicyName.IsNull then none
                    else some { Name := planSmb.ClientPolicyName.ValueStringPointer }
                  SharePolicy :=
                    if planSmb.SharePolicyName.IsNull then none
                    else some { Name := planSmb.SharePolicyName.ValueStringPointer } } } := by
  unfold Update
  by_cases hn : plan.Nfs = state.Nfs
  · simp only [Update_nfs_of_eq plan state _ hn]
    by_cases hs : plan.Smb = state.Smb
    · simp only [Update_smb_of_eq plan state _ hs]
      split <;> [skip; split] <;> simp [Update_scalars_eq, hn, hs]
    · cases hps : plan.Smb with
      | null =>
        simp only [Update_smb_of_null plan state _ hs hps]
        split <;> [skip; split] <;> simp [Update_scalars_eq, hn, hs, hps, hps ▸ hs]
      | unknown =>
        simp only [Update_smb_of_unknown plan state _ hs hps]
        simp [Update_scalars_eq, hn, hs, hps, hps ▸ hs]
      | known planSmb =>
        simp only [Update_smb_of_known plan state _ planSmb hs hps]
        split <;> [skip; split] <;> simp [Update_scalars_eq, hn, hs, hps, hps ▸ hs]
  · cases hpn : plan.Nfs with
    | null =>
      simp only [Update_nfs_of_null plan state _ hn hpn]
      by_cases hs : plan.Smb = state.Smb
      · simp only [Update_smb_of_eq plan state _ hs]
        split <;> [skip; split] <;> simp [Update_scalars_eq, hn, hs, hpn, hpn ▸ hn]
      · cases hps : plan.Smb with
        | null =>
          simp only [Update_smb_of_null plan state _ hs hps]
          split <;> [skip; split] <;> simp [Update_scalars_eq, hn, hs, hps, hps ▸ hs, hpn, hpn ▸ hn]
        | unknown =>
          simp only [Update_smb_of_unknown plan state _ hs hps]
          simp [Update_scalars_eq, hn, hs, hps, hps ▸ hs, hpn, hpn ▸ hn]
        | known planSmb =>
          simp only [Update_smb_of_known plan state _ planSmb hs hps]
          split <;> [skip; split] <;> simp [Update_scalars_eq, hn, hs, hps, hps ▸ hs, hpn, hpn ▸ hn]
    | unknown =>
      simp only [Update_nfs_of_unknown plan state _ hn hpn]
      simp [Update_scalars_eq, hn, hpn, hpn ▸ hn]
    | known planNfs =>
      simp only [Update_nfs_of_known plan state _ planNfs hn hpn]
      by_cases hs : plan.Smb = state.Smb
      · simp only [Update_smb_of_eq plan state _ hs]
        split <;> [skip; split] <;> simp [Update_scalars_eq, hn, hs, hpn, hpn ▸ hn]
      · cases hps : plan.Smb with
        | null =>
          simp only [Update_smb_of_null plan state _ hs hps]
          split <;> [skip; split] <;> simp [Update_scalars_eq, hn, hs, hps, hps ▸ hs, hpn, hpn ▸ hn]
        | unknown =>
          simp only [Update_smb_of_unknown plan state _ hs hps]
          simp [Update_scalars_eq, hn, hs, hps, hps ▸ hs, hpn, hpn ▸ hn]
        | known planSmb =>
          simp only [Update_smb_of_known plan state _ planSmb hs hps]
          split <;> [skip; split] <;> simp [Update_scalars_eq, hn, hs, hps, hps ▸ hs, hpn, hpn ▸ hn]

theorem UpdateFileSystem_log (c : client.Client) (name : String) (fs : fb.FileSystemPatch)
    (log : List fb.Call) :
    (c.UpdateFileSystem name fs log).2 = log ++ [fb.Call.PatchApi217FileSystems [name] fs] := by
  unfold client.Client.UpdateFileSystem
  simp only []
  split
  · rfl
  · split
    · rfl
    · split
      · rfl
      · split <;> rfl

theorem GetFileSystemByName_log (c : client.Client) (name : String) (log : List fb.Call) :
    (c.GetFileSystemByName name log).2 = log ++ [fb.Call.GetApi217FileSystems [name]] := by
  unfold client.Client.GetFileSystemByName
  simp only []
  split
  · rfl
  · split
    · rfl
    · split
      · rfl
      · split <;> rfl

theorem EradicateFileSystem_log (c : client.Client) (name : String) (log : List fb.Call) :
    (c.EradicateFileSystem name log).2 = log ++ [fb.Call.DeleteApi217FileSystems [name]] := by
  unfold client.Client.EradicateFileSystem
  simp only []
  split
  · rfl
  · split <;> rfl

theorem Delete_eradicate_log (c : client.Client) (name : String) (log : List fb.Call) :
    (Delete.eradicate c name log).log = log ++ [fb.Call.DeleteApi217FileSystems [name]] := by
  unfold Delete.eradicate
  have h := EradicateFileSystem_log c name log
  rcases hr : c.EradicateFileSystem name log with ⟨r, lg⟩
  rw [hr] at h
  cases r <;> simpa using h

theorem CreateFileSystem_log (c : client.Client) (name : String) (fs : fb.FileSystemPost)
    (log : List fb.Call) :
    (c.CreateFileSystem name fs log).2 = log ++ [fb.Call.PostApi217FileSystems [name] fs] := by
  unfold client.Client.CreateFileSystem
  simp only []
  split
  · rfl
  · split
    · rfl
    · split
      · rfl
      · split <;> rfl

/-- When both block statements of `Update` succeed and a patch is needed, the
patch call is the only call made and carries the patch held in the locals. -/
theorem Update_of_needed (c : client.Client) (plan state : fileSystemResourceModel)
    (log : List fb.Call) (l1 l2 : updateLocals)
    (h1 : Update.nfs plan state (Update.scalars plan state) = Except.ok l1)
    (h2 : Update.smb plan state l1 = Except.ok l2) (hneeded : l2.isPatchNeeded = true) :
    (Update c plan state log).fsToUpdate = l2.fsToUpdate ∧
    (Update c plan state log).log =
      log ++ [fb.Call.PatchApi217FileSystems [plan.Name.ValueString] l2.fsToUpdate] := by
  have hlog := UpdateFileSystem_log c plan.Name.ValueString l2.fsToUpdate log
  unfold Update
  simp only [h1, h2, hneeded]
  rcases hu : c.UpdateFileSystem plan.Name.ValueString l2.fsToUpdate log with ⟨r, lg⟩
  rw [hu] at hlog
  simp only at hlog
  subst hlog
  cases r <;> simp

end provider

/-! ## Update: idempotence, minimality and soundness of the diff -/

namespace provider

/-- C1 (idempotent update): when the desired and the observed model are the same
model, the patch built by `Update` has no member set, no SDK call is appended to
the log (`UpdateFileSystem` is never invoked), no diagnostic is reported and the
state is left untouched. -/
theorem Update_idempotent (c : client.Client) (m : fileSystemResourceModel)
    (log : List fb.Call) :
    Update c m m log =
      { fsToUpdate := {}, isPatchNeeded := false, Diagnostics := [],
        State := StateWrite.untouched, log := log } := by
  simp [Update, Update_scalars_eq, Update.nfs, Update.smb]

/-- C2 as stated fails: desired and observed differ only in `provisioned`
(desired null, observed 1000), yet the patch built by `Update` has no member set
at all, and that empty patch is sent. -/
theorem Update_single_scalar_null_counterexample :
    (Update (client.fixedClient {}) { Name := attr.Value.known "fs1" }
        { Name := attr.Value.known "fs1", Provisioned := attr.Value.known 1000 }
        []).fsToUpdate = {} ∧
    (Update (client.fixedClient {}) { Name := attr.Value.known "fs1" }
        { Name := attr.Value.known "fs1", Provisioned := attr.Value.known 1000 }
        []).log = [fb.Call.PatchApi217FileSystems ["fs1"] {}] := by
  decide

/-- C2 amended (patch minimality): let the observed model be the desired model
with exactly one scalar member replaced by a different value. For each of the
seven plain scalars whose desired value is not null, the patch built by `Update`
has exactly that member set, to the desired value, and nothing else; for
`qos_policy_name` the patch has exactly the QoS reference set, named by the
desired value (the empty string when that value is null). -/
theorem Update_single_scalar_patch (c : client.Client) (plan : fileSystemResourceModel)
    (log : List fb.Call) :
    (∀ x, x ≠ plan.Provisioned → plan.Provisioned.IsNull = false →
      (Update c plan { plan with Provisioned := x } log).fsToUpdate =
        { Provisioned := some plan.Provisioned.ValueInt64 }) ∧
    (∀ x, x ≠ plan.HardLimitEnabled → plan.HardLimitEnabled.IsNull = false →
      (Update c plan { plan with HardLimitEnabled := x } log).fsToUpdate =
        { HardLimitEnabled := some plan.HardLimitEnabled.ValueBool }) ∧
    (∀ x, x ≠ plan.DefaultGroupQuota → plan.DefaultGroupQuota.IsNull = false →
      (Update c plan { plan with DefaultGroupQuota := x } log).fsToUpdate =
        { DefaultGroupQuota := some plan.DefaultGroupQuota.ValueInt64 }) ∧
    (∀ x, x ≠ plan.DefaultUserQuota → plan.DefaultUserQuota.IsNull = false →
      (Update c plan { plan with DefaultUserQuota := x } log).fsToUpdate =
        { DefaultUserQuota := some plan.DefaultUserQuota.ValueInt64 }) ∧
    (∀ x, x ≠ plan.SnapshotDirectoryEnabled → plan.SnapshotDirectoryEnabled.IsNull = false →
      (Update c plan { plan with SnapshotDirectoryEnabled := x } log).fsToUpdate =
        { SnapshotDirectoryEnabled := some plan.SnapshotDirectoryEnabled.ValueBool }) ∧
    (∀ x, x ≠ plan.Writable → plan.Writable.IsNull = false →
      (Update c plan { plan with Writable := x } log).fsToUpdate =
        { Writable := some plan.Writable.ValueBool }) ∧
    (∀ x, x ≠ plan.RequestedPromotionState → plan.RequestedPromotionState.IsNull = false →
      (Update c plan { plan with RequestedPromotionState := x } log).fsToUpdate =
        { RequestedPromotionState := some plan.RequestedPromotionState.ValueString }) ∧
    (∀ x, x ≠ plan.QosPolicyName →
      (Update c plan { plan with QosPolicyName := x } log).fsToUpdate =
        { QosPolicy := some { Name := some plan.QosPolicyName.ValueString } }) := by
  refine ⟨?_, ?_, ?_, ?_, ?_, ?_, ?_, ?_⟩
  · intro x hx hn
    simp [Update_fsToUpdate, Update_scalars_eq, hx.symm, attr.Value.ValueInt64Pointer, hn]
  · intro x hx hn
    simp [Update_fsToUpdate, Update_scalars_eq, hx.symm, attr.Value.ValueBoolPointer, hn]
  · intro x hx hn
    simp [Update_fsToUpdate, Update_scalars_eq, hx.symm, attr.Value.ValueInt64Pointer, hn]
  · intro x hx hn
    simp [Update_fsToUpdate, Update_scalars_eq, hx.symm, attr.Value.ValueInt64Pointer, hn]
  · intro x hx hn
    simp [Update_fsToUpdate, Update_scalars_eq, hx.symm, attr.Value.ValueBoolPointer, hn]
  · intro x hx hn
    simp [Update_fsToUpdate, Update_scalars_eq, hx.symm, attr.Value.ValueBoolPointer, hn]
  · intro x hx hn
    simp [Update_fsToUpdate, Update_scalars_eq, hx.symm, attr.Value.ValueStringPointer, hn]
  · intro x hx
    simp [Update_fsToUpdate, Update_scalars_eq, hx.symm]

/-- Desired `provisioned` 2000 against observed 1000, everything else equal: the
patch is exactly `provisioned = 2000`. -/
theorem Update_single_scalar_patch_witness :
    (attr.Value.known 1000 : basetypes.Int64Value) ≠ attr.Value.known 2000 ∧
    (Update (client.fixedClient {})
        { Name := attr.Value.known "fs1", Provisioned := attr.Value.known 2000 }
        { Name := attr.Value.known "fs1", Provisioned := attr.Value.known 1000 }
        []).fsToUpdate = { Provisioned := some 2000 } :=
  ⟨by decide,
    (Update_single_scalar_patch (client.fixedClient {})
      { Name := attr.Value.known "fs1", Provisioned := attr.Value.known 2000 } []).1
      (attr.Value.known 1000) (by decide) rfl⟩

/-- C3 (diff soundness): each scalar member, the QoS reference, the NFS block and
the SMB block of the patch built by `Update` is set only if the desired attribute
differs from the observed one (null against a value counts as different); an
attribute on which the two models agree never appears in the patch. -/
theorem Update_patch_sound (c : client.Client) (plan state : fileSystemResourceModel)
    (log : List fb.Call) :
    ((Update c plan state log).fsToUpdate.Provisioned ≠ none →
      plan.Provisioned ≠ state.Provisioned) ∧
    ((Update c plan state log).fsToUpdate.HardLimitEnabled ≠ none →
      plan.HardLimitEnabled ≠ state.HardLimitEnabled) ∧
    ((Update c plan state log).fsToUpdate.DefaultGroupQuota ≠ none →
      plan.DefaultGroupQuota ≠ state.DefaultGroupQuota) ∧
    ((Update c plan state log).fsToUpdate.DefaultUserQuota ≠ none →
      plan.DefaultUserQuota ≠ state.DefaultUserQuota) ∧
    ((Update c plan state log).fsToUpdate.SnapshotDirectoryEnabled ≠ none →
      plan.SnapshotDirectoryEnabled ≠ state.SnapshotDirectoryEnabled) ∧
    ((Update c plan state log).fsToUpdate.Writable ≠ none →
      plan.Writable ≠ state.Writable) ∧
    ((Update c plan state log).fsToUpdate.RequestedPromotionState ≠ none →
      plan.RequestedPromotionState ≠ state.RequestedPromotionState) ∧
    ((Update c plan state log).fsToUpdate.QosPolicy ≠ none →
      plan.QosPolicyName ≠ state.QosPolicyName) ∧
    ((Update c plan state log).fsToUpdate.Nfs ≠ none → plan.Nfs ≠ state.Nfs) ∧
    ((Update c plan state log).fsToUpdate.Smb ≠ none → plan.Smb ≠ state.Smb) := by
  rw [Update_fsToUpdate, Update_scalars_eq]
  refine ⟨?_, ?_, ?_, ?_, ?_, ?_, ?_, ?_, ?_, ?_⟩ <;> intro h heq <;> simp [heq] at h

/-- A patch that sets `provisioned`: the desired and the observed `provisioned`
differ. -/
theorem Update_patch_sound_witness :
    (Update (client.fixedClient {})
        { Name := attr.Value.known "fs1", Provisioned := attr.Value.known 2000 }
        { Name := attr.Value.known "fs1", Provisioned := attr.Value.known 1000 }
        []).fsToUpdate.Provisioned ≠ none ∧
    (attr.Value.known 2000 : basetypes.Int64Value) ≠ attr.Value.known 1000 :=
  ⟨by decide,
    (Update_patch_sound (client.fixedClient {})
      { Name := attr.Value.known "fs1", Provisioned := attr.Value.known 2000 }
      { Name := attr.Value.known "fs1", Provisioned := attr.Value.known 1000 } []).1
      (by decide)⟩

end provider

/-! ## Delete, Read and Create -/

namespace provider

/-- C4 (two-phase delete ordering): let the lookup of `Delete` return the record
`fs`. If its destroyed flag is absent or false, `Delete` issues, after the lookup,
one patch call whose body sets exactly `destroyed = true`, `nfs.v3_enabled = false`,
`nfs.v4_1_enabled = false` and `smb.enabled = false`, and, when that patch call
succeeds, the eradicate call after it (when it fails, nothing more). If the flag
is true, `Delete` issues no patch call and issues the eradicate call right after
the lookup. Eradicate is the last call and carries the name used by the lookup. -/
theorem Delete_two_phase_order (c : client.Client) (state : fileSystemResourceModel)
    (log : List fb.Call) (fs : fb.FileSystem)
    (hget : (c.GetFileSystemByName state.Name.ValueString log).1 = Except.ok (some fs)) :
    (fs.Destroyed ≠ some true →
      (∀ r,
        (c.UpdateFileSystem state.Name.ValueString
            { Destroyed := some true
              Nfs := some { V3Enabled := some false, V41Enabled := some false }
              Smb := some { Enabled := some false } }
            (log ++ [fb.Call.GetApi217FileSystems [state.Name.ValueString]])).1 = Except.ok r →
        (Delete c state log).log =
          log ++
            [fb.Call.GetApi217FileSystems [state.Name.ValueString],
             fb.Call.PatchApi217FileSystems [state.Name.ValueString]
               { Destroyed := some true
                 Nfs := some { V3Enabled := some false, V41Enabled := some false }
                 Smb := some { Enabled := some false } },
             fb.Call.DeleteApi217FileSystems [state.Name.ValueString]]) ∧
      (∀ e,
        (c.UpdateFileSystem state.Name.ValueString
            { Destroyed := some true
              Nfs := some { V3Enabled := some false, V41Enabled := some false }
              Smb := some { Enabled := some false } }
            (log ++ [fb.Call.GetApi217FileSystems [state.Name.ValueString]])).1 =
          Except.error e →
        (Delete c state log).log =
          log ++
            [fb.Call.GetApi217FileSystems [state.Name.ValueString],
             fb.Call.PatchApi217FileSystems [state.Name.ValueString]
               { Destroyed := some true
                 Nfs := some { V3Enabled := some false, V41Enabled := some false }
                 Smb := some { Enabled := some false } }])) ∧
    (fs.Destroyed = some true →
      (Delete c state log).log =
        log ++
          [fb.Call.GetApi217FileSystems [state.Name.ValueString],
           fb.Call.DeleteApi217FileSystems [state.Name.ValueString]]) := by
  have hlog := GetFileSystemByName_log c state.Name.ValueString log
  rcases hr : c.GetFileSystemByName state.Name.ValueString log with ⟨r, lg⟩
  rw [hr] at hget hlog
  simp only at hget hlog
  subst hget hlog
  refine ⟨?_, ?_⟩
  · intro hd
    have hd2 : fs.Destroyed = none ∨ fs.Destroyed = some false := by
      cases hdv : fs.Destroyed with
      | none => simp
      | some b => cases b <;> simp_all
    have hulog := UpdateFileSystem_log c state.Name.ValueString
      { Destroyed := some true
        Nfs := some { V3Enabled := some false, V41Enabled := some false }
        Smb := some { Enabled := some false } }
      (log ++ [fb.Call.GetApi217FileSystems [state.Name.ValueString]])
    rcases hu : c.UpdateFileSystem state.Name.ValueString
      { Destroyed := some true
        Nfs := some { V3Enabled := some false, V41Enabled := some false }
        Smb := some { Enabled := some false } }
      (log ++ [fb.Call.GetApi217FileSystems [state.Name.ValueString]]) with ⟨ur, ulg⟩
    rw [hu] at hulog
    simp only at hulog
    subst hulog
    refine ⟨?_, ?_⟩
    · intro r0 hr0
      simp only at hr0
      subst hr0
      simp [Delete, hr, hd2, hu, Delete_eradicate_log]
    · intro e he
      simp only at he
      subst he
      simp [Delete, hr, hd2, hu]
  · intro hd
    simp [Delete, hr, hd, Delete_eradicate_log]

/-- A record that is not yet destroyed: lookup, soft-disable patch, eradicate. -/
theorem Delete_two_phase_order_witness :
    (Delete (client.fixedClient { Name := some "fs1" }) { Name := attr.Value.known "fs1" } []).log =
      [fb.Call.GetApi217FileSystems ["fs1"],
       fb.Call.PatchApi217FileSystems ["fs1"]
         { Destroyed := some true
           Nfs := some { V3Enabled := some false, V41Enabled := some false }
           Smb := some { Enabled := some false } },
       fb.Call.DeleteApi217FileSystems ["fs1"]] :=
  ((Delete_two_phase_order (client.fixedClient { Name := some "fs1" })
    { Name := attr.Value.known "fs1" } [] { Name := some "fs1" } rfl).1 (by decide)).1
    { Name := some "fs1" } rfl

/-- C5 (absence normalization): let the lookup of `Read` succeed with `r`. `Read`
removes the resource from state with no diagnostic if and only if `r` is no record
or a record whose destroyed flag is present and true; both cases give the same
run (state removed, no diagnostic, the lookup as the only call); in every other
case the state is set to the projection of the returned record. -/
theorem Read_absence_normalization (c : client.Client) (state : fileSystemResourceModel)
    (log : List fb.Call) (r : Option fb.FileSystem)
    (hget : (c.GetFileSystemByName state.Name.ValueString log).1 = Except.ok r) :
    (((Read c state log).State = StateWrite.RemoveResource ∧
        (Read c state log).Diagnostics = []) ↔
      (r = none ∨ ∃ fs, r = some fs ∧ fs.Destroyed = some true)) ∧
    ((r = none ∨ ∃ fs, r = some fs ∧ fs.Destroyed = some true) →
      Read c state log =
        { Diagnostics := [], State := StateWrite.RemoveResource
          log := log ++ [fb.Call.GetApi217FileSystems [state.Name.ValueString]] }) ∧
    (∀ fs, r = some fs → fs.Destroyed ≠ some true →
      Read c state log =
        { Diagnostics := [], State := StateWrite.Set (mapFileSystemToModel fs state)
          log := log ++ [fb.Call.GetApi217FileSystems [state.Name.ValueString]] }) := by
  have hlog := GetFileSystemByName_log c state.Name.ValueString log
  rcases hr : c.GetFileSystemByName state.Name.ValueString log with ⟨r0, lg⟩
  rw [hr] at hget hlog
  simp only at hget hlog
  subst hget hlog
  cases r with
  | none => simp [Read, hr]
  | some fs =>
    by_cases hd : fs.Destroyed = some true <;> simp [Read, hr, hd]

/-- A record whose destroyed flag is true is removed from state. -/
theorem Read_absence_normalization_witness :
    Read (client.fixedClient { Name := some "fs1", Destroyed := some true })
        { Name := attr.Value.known "fs1" } [] =
      { Diagnostics := [], State := StateWrite.RemoveResource
        log := [fb.Call.GetApi217FileSystems ["fs1"]] } :=
  (Read_absence_normalization (client.fixedClient { Name := some "fs1", Destroyed := some true })
    { Name := attr.Value.known "fs1" } []
    (some { Name := some "fs1", Destroyed := some true }) rfl).2.1
    (Or.inr ⟨_, rfl, rfl⟩)

/-- C6 (create confirmation): `CreateFileSystem` returns the record `item` without
error if and only if the create call answered with status 200 and a present,
non-empty items list whose first element is `item`; a 200 answer with a missing
body, missing items or an empty items list is an error; and whenever
`CreateFileSystem` fails on the payload built by `Create`, `Create` writes no state
and reports a diagnostic. -/
theorem CreateFileSystem_confirmation (c : client.Client) (name : String)
    (fs : fb.FileSystemPost) (log : List fb.Call) :
    (∀ item, (c.CreateFileSystem name fs log).1 = Except.ok item ↔
      ∃ resp items,
        c.ClientWithResponses.PostApi217FileSystemsWithResponse [name] fs = Except.ok resp ∧
        resp.StatusCode = 200 ∧ resp.JSON200 = some { Items := some (item :: items) }) ∧
    (∀ resp,
      c.ClientWithResponses.PostApi217FileSystemsWithResponse [name] fs = Except.ok resp →
      resp.StatusCode = 200 →
      (resp.JSON200 = none ∨ resp.JSON200 = some { Items := none } ∨
        resp.JSON200 = some { Items := some [] }) →
      (c.CreateFileSystem name fs log).1 =
        Except.error "API did not return created file system in response") ∧
    (∀ plan e,
      (c.CreateFileSystem plan.Name.ValueString (Create c plan log).fsToCreate log).1 =
        Except.error e →
      (Create c plan log).State = StateWrite.untouched ∧ (Create c plan log).Diagnostics ≠ []) := by
  refine ⟨?_, ?_, ?_⟩
  · intro item
    unfold client.Client.CreateFileSystem
    cases hp : c.ClientWithResponses.PostApi217FileSystemsWithResponse [name] fs with
    | error err => simp [hp]
    | ok resp =>
      rcases resp with ⟨sc, st, body, j⟩
      by_cases hs : sc = 200
      · rcases j with _ | ⟨_ | _ | ⟨i, is⟩⟩ <;> simp [hp, http.StatusOK, hs]
      · simp [hp, http.StatusOK, hs]
  · intro resp hp hs hj
    rcases hj with h | h | h <;>
      simp [client.Client.CreateFileSystem, hp, hs, http.StatusOK, h]
  · intro plan e
    unfold Create
    simp only []
    split
    · simp
    · split
      · simp
      · split
        · simp
        · rename_i h
          intro he
          simp only [] at he
          rw [h] at he
          simp at he

/-- A 200 answer carrying one record is returned as that record. -/
theorem CreateFileSystem_confirmation_witness :
    ((client.fixedClient { Name := some "fs1" }).CreateFileSystem "fs1" {} []).1 =
      Except.ok { Name := some "fs1" } :=
  ((CreateFileSystem_confirmation (client.fixedClient { Name := some "fs1" }) "fs1" {} []).1
    { Name := some "fs1" }).2 ⟨fb.ok200 [{ Name := some "fs1" }], [], rfl, rfl, rfl⟩

end provider

/-! ## Protocol blocks, QoS reference and lookup -/

namespace provider

/-- C7 (SMB projection): `mapFileSystemToModel` yields a null `smb` block when the
record has no SMB stanza and when the stanza has `enabled` false or absent; the
block is non-null exactly when the stanza is present with `enabled` present and
true. -/
theorem mapFileSystemToModel_smb_projection (fs : fb.FileSystem)
    (model : fileSystemResourceModel) :
    (fs.Smb = none → (mapFileSystemToModel fs model).Smb = attr.Value.null) ∧
    (∀ smb, fs.Smb = some smb → smb.Enabled ≠ some true →
      (mapFileSystemToModel fs model).Smb = attr.Value.null) ∧
    ((mapFileSystemToModel fs model).Smb ≠ attr.Value.null ↔
      ∃ smb, fs.Smb = some smb ∧ smb.Enabled = some true) := by
  rw [mapFileSystemToModel_Smb]
  cases hs : fs.Smb with
  | none => simp
  | some smb =>
    by_cases he : smb.Enabled = some true <;> simp [he]

/-- A record whose SMB stanza has `enabled = false` projects to a null block. -/
theorem mapFileSystemToModel_smb_projection_witness :
    (mapFileSystemToModel { Name := some "fs1", Smb := some { Enabled := some false } }
      {}).Smb = attr.Value.null :=
  (mapFileSystemToModel_smb_projection
    { Name := some "fs1", Smb := some { Enabled := some false } } {}).2.1
    { Enabled := some false } rfl (by decide)

/-- C8 as stated fails: desired `smb` is null and observed `smb` is enabled, but
desired `nfs` is unknown while observed `nfs` is null, so `Update` returns on the
failed conversion of the NFS object before it reaches the SMB statement: the patch
has no SMB block and no call is issued. -/
theorem Update_smb_removal_counterexample :
    (Update (client.fixedClient {})
        { Name := attr.Value.known "fs1", Nfs := attr.Value.unknown, Smb := attr.Value.null }
        { Name := attr.Value.known "fs1", Nfs := attr.Value.null,
          Smb := attr.Value.known { Enabled := attr.Value.known true } } []).fsToUpdate.Smb = none ∧
    (Update (client.fixedClient {})
        { Name := attr.Value.known "fs1", Nfs := attr.Value.unknown, Smb := attr.Value.null }
        { Name := attr.Value.known "fs1", Nfs := attr.Value.null,
          Smb := attr.Value.known { Enabled := attr.Value.known true } } []).log = [] := by
  decide

/-- C8 amended (SMB removal diff): for a desired model whose `smb` block is null and
an observed model whose `smb` block is non-null with `enabled = true`, provided the
desired `nfs` block is not an unknown value that differs from the observed one
(so that the NFS statement does not return early), the patch built by `Update` has
an SMB block with `enabled = false` and no other SMB member set, and `Update`
issues the patch call, addressed by the desired name and carrying that patch. -/
theorem Update_smb_removal (c : client.Client) (plan state : fileSystemResourceModel)
    (log : List fb.Call) (observedSmb : smbModel)
    (hplan : plan.Smb = attr.Value.null)
    (hstate : state.Smb = attr.Value.known observedSmb)
    (henabled : observedSmb.Enabled = attr.Value.known true)
    (hnfs : plan.Nfs ≠ attr.Value.unknown ∨ plan.Nfs = state.Nfs) :
    (Update c plan state log).fsToUpdate.Smb = some { Enabled := some false } ∧
    (Update c plan state log).log =
      log ++ [fb.Call.PatchApi217FileSystems [plan.Name.ValueString]
        (Update c plan state log).fsToUpdate] := by
  have hs : plan.Smb ≠ state.Smb := by rw [hplan, hstate]; simp
  have key : ∀ l1, Update.nfs plan state (Update.scalars plan state) = Except.ok l1 →
      (Update c plan state log).fsToUpdate.Smb = some { Enabled := some false } ∧
      (Update c plan state log).log =
        log ++ [fb.Call.PatchApi217FileSystems [plan.Name.ValueString]
          (Update c plan state log).fsToUpdate] := by
    intro l1 h1
    have h := Update_of_needed c plan state log l1 _ h1
      (Update_smb_of_null plan state l1 hs hplan) rfl
    rw [h.1, h.2]
    exact ⟨rfl, rfl⟩
  by_cases hn : plan.Nfs = state.Nfs
  · exact key _ (Update_nfs_of_eq plan state _ hn)
  · cases hpn : plan.Nfs with
    | null => exact key _ (Update_nfs_of_null plan state _ hn hpn)
    | unknown =>
      rcases hnfs with h | h
      · exact absurd hpn h
      · exact absurd h hn
    | known planNfs => exact key _ (Update_nfs_of_known plan state _ planNfs hn hpn)

/-- Desired `smb` null against observed `smb` enabled, `nfs` null on both sides. -/
theorem Update_smb_removal_witness :
    (Update (client.fixedClient {})
        { Name := attr.Value.known "fs1", Smb := attr.Value.null }
        { Name := attr.Value.known "fs1",
          Smb := attr.Value.known { Enabled := attr.Value.known true } } []).fsToUpdate.Smb =
      some { Enabled := some false } :=
  (Update_smb_removal (client.fixedClient {})
    { Name := attr.Value.known "fs1", Smb := attr.Value.null }
    { Name := attr.Value.known "fs1",
      Smb := attr.Value.known { Enabled := attr.Value.known true } } []
    { Enabled := attr.Value.known true } rfl rfl rfl (Or.inl (by decide))).1

/-- C9 (clear versus leave unchanged for QoS): when the desired `qos_policy_name` is
null and the observed one is a set name, the patch built by `Update` has a QoS
reference that is present with the empty string as its name; when the desired and
the observed `qos_policy_name` are equal the QoS reference of the patch is
omitted. -/
theorem Update_qos_clear (c : client.Client) (plan state : fileSystemResourceModel)
    (log : List fb.Call) :
    (∀ name, plan.QosPolicyName = attr.Value.null →
      state.QosPolicyName = attr.Value.known name →
      (Update c plan state log).fsToUpdate.QosPolicy = some { Name := some "" }) ∧
    (plan.QosPolicyName = state.QosPolicyName →
      (Update c plan state log).fsToUpdate.QosPolicy = none) := by
  rw [Update_fsToUpdate, Update_scalars_eq]
  refine ⟨?_, ?_⟩
  · intro name hp hs
    simp [hp, hs, attr.Value.ValueString]
  · intro h
    simp [h]

/-- Desired `qos_policy_name` null against observed `gold`. -/
theorem Update_qos_clear_witness :
    (Update (client.fixedClient {})
        { Name := attr.Value.known "fs1" }
        { Name := attr.Value.known "fs1", QosPolicyName := attr.Value.known "gold" }
        []).fsToUpdate.QosPolicy = some { Name := some "" } :=
  (Update_qos_clear (client.fixedClient {})
    { Name := attr.Value.known "fs1" }
    { Name := attr.Value.known "fs1", QosPolicyName := attr.Value.known "gold" } []).1
    "gold" rfl rfl

/-- C10 (`lookupByName` normalization): for a 200 answer to the filtered list
call, `GetFileSystemByName` returns no record and no error when the body or the
items list is missing or the list is empty, and the first element, with no error,
when the list has one or more elements; it returns an error only when the
transport failed or the status is not 200. -/
theorem GetFileSystemByName_normalization (c : client.Client) (name : String)
    (log : List fb.Call) :
    (∀ resp,
      c.ClientWithResponses.GetApi217FileSystemsWithResponse [name] = Except.ok resp →
      resp.StatusCode = 200 →
      ((resp.JSON200 = none ∨ resp.JSON200 = some { Items := none } ∨
          resp.JSON200 = some { Items := some [] }) →
        (c.GetFileSystemByName name log).1 = Except.ok none) ∧
      (∀ item items, resp.JSON200 = some { Items := some (item :: items) } →
        (c.GetFileSystemByName name log).1 = Except.ok (some item))) ∧
    (∀ e, (c.GetFileSystemByName name log).1 = Except.error e →
      (∃ err,
        c.ClientWithResponses.GetApi217FileSystemsWithResponse [name] = Except.error err) ∨
      (∃ resp,
        c.ClientWithResponses.GetApi217FileSystemsWithResponse [name] = Except.ok resp ∧
        resp.StatusCode ≠ 200)) := by
  refine ⟨?_, ?_⟩
  · intro resp hresp hstatus
    refine ⟨?_, ?_⟩
    · rintro (h | h | h) <;>
        simp [client.Client.GetFileSystemByName, hresp, hstatus, http.StatusOK, h]
    · intro item items h
      simp [client.Client.GetFileSystemByName, hresp, hstatus, http.StatusOK, h]
  · intro e h
    unfold client.Client.GetFileSystemByName at h
    cases hr : c.ClientWithResponses.GetApi217FileSystemsWithResponse [name] with
    | error err => exact Or.inl ⟨err, rfl⟩
    | ok resp =>
      right
      refine ⟨resp, rfl, ?_⟩
      intro hs
      simp only [hr, http.StatusOK, hs] at h
      rcases resp with ⟨sc, st, body, j⟩
      rcases j with _ | ⟨_ | _ | _⟩ <;> simp at h

/-- A 200 answer with one record: that record is returned. -/
theorem GetFileSystemByName_normalization_witness :
    ((client.fixedClient { Name := some "fs1" }).GetFileSystemByName "fs1" []).1 =
      Except.ok (some { Name := some "fs1" }) :=
  ((GetFileSystemByName_normalization (client.fixedClient { Name := some "fs1" }) "fs1" []).1
    (fb.ok200 [{ Name := some "fs1" }]) rfl rfl).2 { Name := some "fs1" } [] rfl

end provider

/-! ## Auxiliary lemmas for Delete, Create and the mapper -/

namespace provider

/-- The error returned by `EradicateFileSystem` does not depend on the log. -/
theorem EradicateFileSystem_fst (c : client.Client) (name : String) (lg1 lg2 : List fb.Call) :
    (c.EradicateFileSystem name lg1).1 = (c.EradicateFileSystem name lg2).1 := by
  unfold client.Client.EradicateFileSystem
  simp only []
  split
  · rfl
  · split <;> rfl

/-- Diagnostics of the eradicate step of `Delete`. -/
theorem Delete_eradicate_Diagnostics (c : client.Client) (name : String) (lg : List fb.Call) :
    ((Delete.eradicate c name lg).Diagnostics = [] ↔ (c.EradicateFileSystem name lg).1 = none) := by
  unfold Delete.eradicate
  rcases hr : c.EradicateFileSystem name lg with ⟨r, lg2⟩
  cases r <;> simp

theorem Create_nfs_of_null (plan : fileSystemResourceModel) (f : fb.FileSystemPost)
    (h : plan.Nfs = attr.Value.null) : Create.nfs plan f = Except.ok f := by
  simp [Create.nfs, h]

theorem Create_nfs_of_unknown (plan : fileSystemResourceModel) (f : fb.FileSystemPost)
    (h : plan.Nfs = attr.Value.unknown) :
    Create.nfs plan f =
      Except.error ⟨"Value Conversion Error", "unhandled unknown value"⟩ := by
  simp [Create.nfs, h, basetypes.ObjectValue.As]

theorem Create_nfs_of_known (plan : fileSystemResourceModel) (f : fb.FileSystemPost)
    (nfsData : nfsModel) (h : plan.Nfs = attr.Value.known nfsData) :
    Create.nfs plan f =
      Except.ok { f with
        Nfs := some
          { V3Enabled := nfsData.V3Enabled.ValueBoolPointer
            V41Enabled := nfsData.V41Enabled.ValueBoolPointer
            Rules := nfsData.Rules.ValueStringPointer } } := by
  simp [Create.nfs, h, basetypes.ObjectValue.As]

theorem Create_smb_of_null (plan : fileSystemResourceModel) (f : fb.FileSystemPost)
    (h : plan.Smb = attr.Value.null) : Create.smb plan f = Except.ok f := by
  simp [Create.smb, h]

theorem Create_smb_of_unknown (plan : fileSystemResourceModel) (f : fb.FileSystemPost)
    (h : plan.Smb = attr.Value.unknown) :
    Create.smb plan f =
      Except.error ⟨"Value Conversion Error", "unhandled unknown value"⟩ := by
  simp [Create.smb, h, basetypes.ObjectValue.As]

theorem Create_smb_of_known (plan : fileSystemResourceModel) (f : fb.FileSystemPost)
    (smbData : smbModel) (h : plan.Smb = attr.Value.known smbData) :
    Create.smb plan f =
      Except.ok { f with
        Smb := some
          { Enabled := smbData.Enabled.ValueBoolPointer
            ContinuousAvailabilityEnabled :=
              smbData.ContinuousAvailabilityEnabled.ValueBoolPointer
            ClientPolicy :=
              if smbData.ClientPolicyName.IsNull then none
              else some { Name := smbData.ClientPolicyName.ValueStringPointer }
            SharePolicy :=
              if smbData.SharePolicyName.IsNull then none
              else some { Name := smbData.SharePolicyName.ValueStringPointer } } } := by
  cases h3 : attr.Value.IsNull smbData.ClientPolicyName <;>
    cases h4 : attr.Value.IsNull smbData.SharePolicyName <;>
    simp [Create.smb, h, basetypes.ObjectValue.As, h3, h4]

/-- When both block statements of `Create` succeed, the create call is made with
the finished payload. -/
theorem Create_of_blocks (c : client.Client) (plan : fileSystemResourceModel)
    (log : List fb.Call) (f1 f2 : fb.FileSystemPost)
    (h1 : Create.nfs plan
      { Provisioned := plan.Provisioned.ValueInt64Pointer
        HardLimitEnabled := plan.HardLimitEnabled.ValueBoolPointer
        DefaultGroupQuota := plan.DefaultGroupQuota.ValueInt64Pointer
        DefaultUserQuota := plan.DefaultUserQuota.ValueInt64Pointer
        SnapshotDirectoryEnabled := plan.SnapshotDirectoryEnabled.ValueBoolPointer
        Writable := plan.Writable.ValueBoolPointer
        RequestedPromotionState := plan.RequestedPromotionState.ValueStringPointer } =
      Except.ok f1)
    (h2 : Create.smb plan f1 = Except.ok f2) :
    (Create c plan log).fsToCreate =
      { f2 with
        QosPolicy :=
          if plan.QosPolicyName.IsNull then f2.QosPolicy
          else some { Name := plan.QosPolicyName.ValueStringPointer } } ∧
    (Create c plan log).log =
      log ++ [fb.Call.PostApi217FileSystems [plan.Name.ValueString]
        (Create c plan log).fsToCreate] := by
  unfold Create
  simp only [h1, h2]
  generalize hq : (if (!plan.QosPolicyName.IsNull) = true then
      ({ f2 with QosPolicy := some { Name := plan.QosPolicyName.ValueStringPointer } } :
        fb.FileSystemPost)
    else f2) = f3
  have hlog := CreateFileSystem_log c plan.Name.ValueString f3 log
  rcases hu : c.CreateFileSystem plan.Name.ValueString f3 log with ⟨r, lg⟩
  rw [hu] at hlog
  simp only at hlog
  subst hlog
  have hf3 : f3 = { f2 with
        QosPolicy :=
          if plan.QosPolicyName.IsNull then f2.QosPolicy
          else some { Name := plan.QosPolicyName.ValueStringPointer } } := by
    rw [← hq]
    cases plan.QosPolicyName.IsNull <;> rfl
  cases r <;> simp [hf3]


/-- The payload built by `Create` and the call it makes, by cases on the `nfs`
and `smb` objects of the plan. -/
theorem Create_fsToCreate (c : client.Client) (plan : fileSystemResourceModel)
    (log : List fb.Call) :
    (Create c plan log).fsToCreate =
      { Provisioned := plan.Provisioned.ValueInt64Pointer
        HardLimitEnabled := plan.HardLimitEnabled.ValueBoolPointer
        DefaultGroupQuota := plan.DefaultGroupQuota.ValueInt64Pointer
        DefaultUserQuota := plan.DefaultUserQuota.ValueInt64Pointer
        SnapshotDirectoryEnabled := plan.SnapshotDirectoryEnabled.ValueBoolPointer
        Writable := plan.Writable.ValueBoolPointer
        RequestedPromotionState := plan.RequestedPromotionState.ValueStringPointer
        Nfs :=
          match plan.Nfs with
          | attr.Value.known nfsData =>
            some
              { V3Enabled := nfsData.V3Enabled.ValueBoolPointer
                V41Enabled := nfsData.V41Enabled.ValueBoolPointer
                Rules := nfsData.Rules.ValueStringPointer }
          | _ => none
        Smb :=
          if plan.Nfs = attr.Value.unknown then none
          else
            match plan.Smb with
            | attr.Value.known smbData =>
              some
                { Enabled := smbData.Enabled.ValueBoolPointer
                  ContinuousAvailabilityEnabled :=
                    smbData.ContinuousAvailabilityEnabled.ValueBoolPointer
                  ClientPolicy :=
                    if smbData.ClientPolicyName.IsNull then none
                    else some { Name := smbData.ClientPolicyName.ValueStringPointer }
                  SharePolicy :=
                    if smbData.SharePolicyName.IsNull then none
                    else some { Name := smbData.SharePolicyName.ValueStringPointer } }
            | _ => none
        QosPolicy :=
          if plan.Nfs = attr.Value.unknown ∨ plan.Smb = attr.Value.unknown then none
          else if plan.QosPolicyName.IsNull then none
          else some { Name := plan.QosPolicyName.ValueStringPointer } } ∧
    (Create c plan log).log =
      if plan.Nfs = attr.Value.unknown ∨ plan.Smb = attr.Value.unknown then log
      else
        log ++ [fb.Call.PostApi217FileSystems [plan.Name.ValueString]
          (Create c plan log).fsToCreate] := by
  have early1 : ∀ d, Create.nfs plan
      { Provisioned := plan.Provisioned.ValueInt64Pointer
        HardLimitEnabled := plan.HardLimitEnabled.ValueBoolPointer
        DefaultGroupQuota := plan.DefaultGroupQuota.ValueInt64Pointer
        DefaultUserQuota := plan.DefaultUserQuota.ValueInt64Pointer
        SnapshotDirectoryEnabled := plan.SnapshotDirectoryEnabled.ValueBoolPointer
        Writable := plan.Writable.ValueBoolPointer
        RequestedPromotionState := plan.RequestedPromotionState.ValueStringPointer } =
      Except.error d →
      (Create c plan log).fsToCreate =
        { Provisioned := plan.Provisioned.ValueInt64Pointer
          HardLimitEnabled := plan.HardLimitEnabled.ValueBoolPointer
          DefaultGroupQuota := plan.DefaultGroupQuota.ValueInt64Pointer
          DefaultUserQuota := plan.DefaultUserQuota.ValueInt64Pointer
          SnapshotDirectoryEnabled := plan.SnapshotDirectoryEnabled.ValueBoolPointer
          Writable := plan.Writable.ValueBoolPointer
          RequestedPromotionState := plan.RequestedPromotionState.ValueStringPointer } ∧
      (Create c plan log).log = log := by
    intro d h
    unfold Create
    simp only [h, and_self]
  have early2 : ∀ f1 d, Create.nfs plan
      { Provisioned := plan.Provisioned.ValueInt64Pointer
        HardLimitEnabled := plan.HardLimitEnabled.ValueBoolPointer
        DefaultGroupQuota := plan.DefaultGroupQuota.ValueInt64Pointer
        DefaultUserQuota := plan.DefaultUserQuota.ValueInt64Pointer
        SnapshotDirectoryEnabled := plan.SnapshotDirectoryEnabled.ValueBoolPointer
        Writable := plan.Writable.ValueBoolPointer
        RequestedPromotionState := plan.RequestedPromotionState.ValueStringPointer } =
      Except.ok f1 → Create.smb plan f1 = Except.error d →
      (Create c plan log).fsToCreate = f1 ∧ (Create c plan log).log = log := by
    intro f1 d h1 h2
    unfold Create
    simp only [h1, h2, and_self]
  cases hn : plan.Nfs with
  | unknown =>
    obtain ⟨e1, e2⟩ := early1 _ (Create_nfs_of_unknown plan _ hn)
    rw [e2, e1]
    simp
  | null =>
    cases hs : plan.Smb with
    | unknown =>
      obtain ⟨e1, e2⟩ := early2 _ _ (Create_nfs_of_null plan _ hn) (Create_smb_of_unknown plan _ hs)
      rw [e2, e1]
      simp
    | null =>
      obtain ⟨e1, e2⟩ := Create_of_blocks c plan log _ _ (Create_nfs_of_null plan _ hn)
        (Create_smb_of_null plan _ hs)
      rw [e2, e1]
      simp
    | known smbData =>
      obtain ⟨e1, e2⟩ := Create_of_blocks c plan log _ _ (Create_nfs_of_null plan _ hn)
        (Create_smb_of_known plan _ smbData hs)
      rw [e2, e1]
      simp
  | known nfsData =>
    cases hs : plan.Smb with
    | unknown =>
      obtain ⟨e1, e2⟩ := early2 _ _ (Create_nfs_of_known plan _ nfsData hn)
        (Create_smb_of_unknown plan _ hs)
      rw [e2, e1]
      simp
    | null =>
      obtain ⟨e1, e2⟩ := Create_of_blocks c plan log _ _ (Create_nfs_of_known plan _ nfsData hn)
        (Create_smb_of_null plan _ hs)
      rw [e2, e1]
      simp
    | known smbData =>
      obtain ⟨e1, e2⟩ := Create_of_blocks c plan log _ _ (Create_nfs_of_known plan _ nfsData hn)
        (Create_smb_of_known plan _ smbData hs)
      rw [e2, e1]
      simp

/-- Every member written by `mapFileSystemToModel`, as a function of the wire
record alone. -/
theorem mapFileSystemToModel_eq (fs : fb.FileSystem) (model : fileSystemResourceModel) :
    mapFileSystemToModel fs model =
      { ID := types.PointerValue fs.Id
        Name := types.PointerValue fs.Name
        Provisioned := types.PointerValue fs.Provisioned
        HardLimitEnabled := types.PointerValue fs.HardLimitEnabled
        DefaultGroupQuota := types.PointerValue fs.DefaultGroupQuota
        DefaultUserQuota := types.PointerValue fs.DefaultUserQuota
        SnapshotDirectoryEnabled := types.PointerValue fs.SnapshotDirectoryEnabled
        Writable := types.PointerValue fs.Writable
        RequestedPromotionState := types.PointerValue fs.PromotionStatus
        QosPolicyName :=
          match fs.QosPolicy with
          | some qos => types.PointerValue qos.Name
          | none => attr.Value.null
        Created := types.PointerValue fs.Created
        Destroyed := types.PointerValue fs.Destroyed
        TimeRemaining := types.PointerValue fs.TimeRemaining
        Nfs :=
          match fs.Nfs with
          | some nfs =>
            if nfs.V3Enabled ≠ none ∨ nfs.V41Enabled ≠ none then
              attr.Value.known
                { V3Enabled := types.PointerValue nfs.V3Enabled
                  V41Enabled := types.PointerValue nfs.V41Enabled
                  Rules := types.PointerValue nfs.Rules }
            else attr.Value.null
          | none => attr.Value.null
        Smb :=
          match fs.Smb with
          | some smb =>
            if smb.Enabled = some true then
              attr.Value.known
                { Enabled := types.PointerValue smb.Enabled
                  ContinuousAvailabilityEnabled :=
                    types.PointerValue smb.ContinuousAvailabilityEnabled
                  ClientPolicyName :=
                    match smb.ClientPolicy with
                    | some ref => types.PointerValue ref.Name
                    | none => attr.Value.null
                  SharePolicyName :=
                    match smb.SharePolicy with
                    | some ref => types.PointerValue ref.Name
                    | none => attr.Value.null }
            else attr.Value.null
          | none => attr.Value.null
        MultiProtocol :=
          match fs.MultiProtocol with
          | some mp =>
            attr.Value.known
              { AccessControlStyle := types.PointerValue mp.AccessControlStyle
                SafeguardAcls := types.PointerValue mp.SafeguardAcls }
          | none => attr.Value.null } := by
  unfold mapFileSystemToModel
  cases fs.Nfs <;> cases fs.Smb <;> cases fs.MultiProtocol <;> cases fs.QosPolicy <;>
    simp only [] <;> split_ifs <;> rfl

end provider

/-! ## Delete failures, create-spec, configuration, projection and frame -/

namespace provider

/-- C11 (delete failure is fatal and stops the protocol): if the lookup of `Delete`
fails, or the soft-disable patch fails, `Delete` reports an error diagnostic and
the log ends before any eradicate call; if the eradicate call, once issued, fails,
`Delete` reports an error diagnostic; and `Delete` ends without diagnostic only if
the lookup succeeded and, for a found record, the patch (when one was due) and
the eradicate call succeeded. -/
theorem Delete_failure_fatal (c : client.Client) (state : fileSystemResourceModel)
    (log : List fb.Call) :
    (∀ e, (c.GetFileSystemByName state.Name.ValueString log).1 = Except.error e →
      (Delete c state log).Diagnostics ≠ [] ∧
      (Delete c state log).log =
        log ++ [fb.Call.GetApi217FileSystems [state.Name.ValueString]]) ∧
    (∀ fs e, (c.GetFileSystemByName state.Name.ValueString log).1 = Except.ok (some fs) →
      fs.Destroyed ≠ some true →
      (c.UpdateFileSystem state.Name.ValueString
          { Destroyed := some true
            Nfs := some { V3Enabled := some false, V41Enabled := some false }
            Smb := some { Enabled := some false } }
          (log ++ [fb.Call.GetApi217FileSystems [state.Name.ValueString]])).1 =
        Except.error e →
      (Delete c state log).Diagnostics ≠ [] ∧
      (Delete c state log).log =
        log ++
          [fb.Call.GetApi217FileSystems [state.Name.ValueString],
           fb.Call.PatchApi217FileSystems [state.Name.ValueString]
             { Destroyed := some true
               Nfs := some { V3Enabled := some false, V41Enabled := some false }
               Smb := some { Enabled := some false } }]) ∧
    (∀ fs e lg, (c.GetFileSystemByName state.Name.ValueString log).1 = Except.ok (some fs) →
      (fs.Destroyed = some true ∨
        ∃ r, (c.UpdateFileSystem state.Name.ValueString
          { Destroyed := some true
            Nfs := some { V3Enabled := some false, V41Enabled := some false }
            Smb := some { Enabled := some false } }
          (log ++ [fb.Call.GetApi217FileSystems [state.Name.ValueString]])).1 = Except.ok r) →
      (c.EradicateFileSystem state.Name.ValueString lg).1 = some e →
      (Delete c state log).Diagnostics ≠ []) ∧
    ((Delete c state log).Diagnostics = [] →
      ∃ r, (c.GetFileSystemByName state.Name.ValueString log).1 = Except.ok r ∧
        ∀ fs, r = some fs →
          (fs.Destroyed ≠ some true →
            ∃ u, (c.UpdateFileSystem state.Name.ValueString
              { Destroyed := some true
                Nfs := some { V3Enabled := some false, V41Enabled := some false }
                Smb := some { Enabled := some false } }
              (log ++ [fb.Call.GetApi217FileSystems [state.Name.ValueString]])).1 =
                Except.ok u) ∧
          ∀ lg, (c.EradicateFileSystem state.Name.ValueString lg).1 = none) := by
  have hlog := GetFileSystemByName_log c state.Name.ValueString log
  rcases hr : c.GetFileSystemByName state.Name.ValueString log with ⟨r, lg0⟩
  rw [hr] at hlog
  simp only at hlog
  subst hlog
  have hulog := UpdateFileSystem_log c state.Name.ValueString
    { Destroyed := some true
      Nfs := some { V3Enabled := some false, V41Enabled := some false }
      Smb := some { Enabled := some false } }
    (log ++ [fb.Call.GetApi217FileSystems [state.Name.ValueString]])
  rcases hu : c.UpdateFileSystem state.Name.ValueString
    { Destroyed := some true
      Nfs := some { V3Enabled := some false, V41Enabled := some false }
      Smb := some { Enabled := some false } }
    (log ++ [fb.Call.GetApi217FileSystems [state.Name.ValueString]]) with ⟨ur, ulg⟩
  rw [hu] at hulog
  simp only at hulog
  subst hulog
  have hdest : ∀ fs : fb.FileSystem, fs.Destroyed ≠ some true →
      (fs.Destroyed = none ∨ fs.Destroyed = some false) := by
    intro fs hd
    cases hdv : fs.Destroyed with
    | none => simp
    | some b => cases b <;> simp_all
  have herad : ∀ lg1, ((Delete.eradicate c state.Name.ValueString lg1).Diagnostics = [] ↔
      ∀ lg, (c.EradicateFileSystem state.Name.ValueString lg).1 = none) := by
    intro lg1
    rw [Delete_eradicate_Diagnostics]
    constructor
    · intro h lg
      rw [EradicateFileSystem_fst c _ lg lg1]
      exact h
    · intro h
      exact h lg1
  refine ⟨?_, ?_, ?_, ?_⟩
  · intro e he
    simp only at he
    subst he
    simp [Delete, hr]
  · intro fs e hget hd he
    simp only at hget he
    subst hget he
    simp [Delete, hr, hdest fs hd, hu]
  · intro fs e lg hget hissued he hnil
    simp only at hget
    subst hget
    have hall : ∀ lg, (c.EradicateFileSystem state.Name.ValueString lg).1 = none := by
      rcases hissued with hd | ⟨u, hu2⟩
      · simp only [Delete, hr, hd] at hnil
        simp only [reduceCtorEq, or_false, ↓reduceIte] at hnil
        exact (herad _).1 hnil
      · simp only at hu2
        subst hu2
        by_cases hd : fs.Destroyed = some true
        · simp only [Delete, hr, hd] at hnil
          simp only [reduceCtorEq, or_false, ↓reduceIte] at hnil
          exact (herad _).1 hnil
        · simp only [Delete, hr, hdest fs hd, hu] at hnil
          simp only [↓reduceIte] at hnil
          exact (herad _).1 hnil
    rw [hall lg] at he
    exact absurd he (by simp)
  · intro hnil
    cases r with
    | error e => simp [Delete, hr] at hnil
    | ok r =>
      refine ⟨r, rfl, ?_⟩
      intro fs hfs
      subst hfs
      by_cases hd : fs.Destroyed = some true
      · simp only [Delete, hr, hd] at hnil
        simp only [reduceCtorEq, or_false, ↓reduceIte] at hnil
        exact ⟨fun h => absurd hd h, (herad _).1 hnil⟩
      · cases ur with
        | error e => simp [Delete, hr, hdest fs hd, hu] at hnil
        | ok u =>
          simp only [Delete, hr, hdest fs hd, hu] at hnil
          simp only [↓reduceIte] at hnil
          exact ⟨fun _ => ⟨u, rfl⟩, (herad _).1 hnil⟩

/-- A failing lookup: one diagnostic, and the lookup is the only call. -/
theorem Delete_failure_fatal_witness :
    (Delete client.downClient { Name := attr.Value.known "fs1" } []).Diagnostics ≠ [] ∧
    (Delete client.downClient { Name := attr.Value.known "fs1" } []).log =
      [fb.Call.GetApi217FileSystems ["fs1"]] :=
  (Delete_failure_fatal client.downClient { Name := attr.Value.known "fs1" } []).1
    "failed to get file system: connection refused" rfl

/-- C12 as stated fails: the desired `nfs` block is non-null (it is unknown), yet
the create-spec built by `Create` has no NFS block: `Create` returns on the failed
conversion of the object, before the SMB and QoS statements and without any call. -/
theorem Create_spec_unknown_counterexample :
    (Create (client.fixedClient {})
        { Name := attr.Value.known "fs1", Provisioned := attr.Value.known 1000,
          Nfs := attr.Value.unknown } []).fsToCreate.Nfs = none ∧
    (Create (client.fixedClient {})
        { Name := attr.Value.known "fs1", Provisioned := attr.Value.known 1000,
          Nfs := attr.Value.unknown } []).log = [] := by
  decide

/-- C12 amended (create-spec projection): the create-spec built by `Create` sets each
of the seven scalar members exactly when the desired value is not null, to the
desired value (the Go zero value for an unknown one). If the desired `nfs` block
is not unknown, the spec has an NFS block iff that block is non-null, with each
sub-field copied independently. If neither `nfs` nor `smb` is unknown, the spec
has an SMB block iff `smb` is non-null, with each sub-field copied independently
and a policy reference only for a non-null policy name; it has a QoS reference
iff `qos_policy_name` is non-null; and the create call is issued with the name as
its addressing parameter and this spec as payload. -/
theorem Create_spec_projection (c : client.Client) (plan : fileSystemResourceModel)
    (log : List fb.Call) :
    ((Create c plan log).fsToCreate.Provisioned =
        (match plan.Provisioned with
          | attr.Value.null => none
          | attr.Value.unknown => some 0
          | attr.Value.known v => some v) ∧
      (Create c plan log).fsToCreate.HardLimitEnabled =
        (match plan.HardLimitEnabled with
          | attr.Value.null => none
          | attr.Value.unknown => some false
          | attr.Value.known v => some v) ∧
      (Create c plan log).fsToCreate.DefaultGroupQuota =
        (match plan.DefaultGroupQuota with
          | attr.Value.null => none
          | attr.Value.unknown => some 0
          | attr.Value.known v => some v) ∧
      (Create c plan log).fsToCreate.DefaultUserQuota =
        (match plan.DefaultUserQuota with
          | attr.Value.null => none
          | attr.Value.unknown => some 0
          | attr.Value.known v => some v) ∧
      (Create c plan log).fsToCreate.SnapshotDirectoryEnabled =
        (match plan.SnapshotDirectoryEnabled with
          | attr.Value.null => none
          | attr.Value.unknown => some false
          | attr.Value.known v => some v) ∧
      (Create c plan log).fsToCreate.Writable =
        (match plan.Writable with
          | attr.Value.null => none
          | attr.Value.unknown => some false
          | attr.Value.known v => some v) ∧
      (Create c plan log).fsToCreate.RequestedPromotionState =
        (match plan.RequestedPromotionState with
          | attr.Value.null => none
          | attr.Value.unknown => some ""
          | attr.Value.known v => some v)) ∧
    (plan.Nfs ≠ attr.Value.unknown →
      ((Create c plan log).fsToCreate.Nfs ≠ none ↔ plan.Nfs ≠ attr.Value.null) ∧
      ∀ nfsData, plan.Nfs = attr.Value.known nfsData →
        (Create c plan log).fsToCreate.Nfs =
          some
            { V3Enabled := nfsData.V3Enabled.ValueBoolPointer
              V41Enabled := nfsData.V41Enabled.ValueBoolPointer
              Rules := nfsData.Rules.ValueStringPointer }) ∧
    (plan.Nfs ≠ attr.Value.unknown → plan.Smb ≠ attr.Value.unknown →
      ((Create c plan log).fsToCreate.Smb ≠ none ↔ plan.Smb ≠ attr.Value.null) ∧
      (∀ smbData, plan.Smb = attr.Value.known smbData →
        (Create c plan log).fsToCreate.Smb =
          some
            { Enabled := smbData.Enabled.ValueBoolPointer
              ContinuousAvailabilityEnabled :=
                smbData.ContinuousAvailabilityEnabled.ValueBoolPointer
              ClientPolicy :=
                if smbData.ClientPolicyName.IsNull then none
                else some { Name := smbData.ClientPolicyName.ValueStringPointer }
              SharePolicy :=
                if smbData.SharePolicyName.IsNull then none
                else some { Name := smbData.SharePolicyName.ValueStringPointer } }) ∧
      (Create c plan log).fsToCreate.QosPolicy =
        (match plan.QosPolicyName with
          | attr.Value.null => none
          | attr.Value.unknown => some { Name := some "" }
          | attr.Value.known v => some { Name := some v }) ∧
      (Create c plan log).log =
        log ++ [fb.Call.PostApi217FileSystems [plan.Name.ValueString]
          (Create c plan log).fsToCreate]) := by
  obtain ⟨hf, hl⟩ := Create_fsToCreate c plan log
  refine ⟨?_, ?_, ?_⟩
  · rw [hf]
    refine ⟨?_, ?_, ?_, ?_, ?_, ?_, ?_⟩
    · cases plan.Provisioned <;> rfl
    · cases plan.HardLimitEnabled <;> rfl
    · cases plan.DefaultGroupQuota <;> rfl
    · cases plan.DefaultUserQuota <;> rfl
    · cases plan.SnapshotDirectoryEnabled <;> rfl
    · cases plan.Writable <;> rfl
    · cases plan.RequestedPromotionState <;> rfl
  · intro hn
    rw [hf]
    cases hp : plan.Nfs with
    | null => simp
    | unknown => exact absurd hp hn
    | known nfsData => simp
  · intro hn hs
    refine ⟨?_, ?_, ?_, ?_⟩
    · rw [hf]
      cases hp : plan.Smb with
      | null => simp
      | unknown => exact absurd hp hs
      | known smbData => simp [hn]
    · intro smbData hp
      rw [hf]
      simp [hp, hn]
    · rw [hf]
      cases hq : plan.QosPolicyName <;>
        simp [hn, hs, attr.Value.ValueStringPointer, attr.Value.ValueString]
    · rw [hl]
      simp [hn, hs]

/-- Desired `fs1` with `provisioned = 1000` and `nfs.v3_enabled = true`: the
create call carries exactly these two settings. -/
theorem Create_spec_projection_witness :
    (Create (client.fixedClient {})
        { Name := attr.Value.known "fs1", Provisioned := attr.Value.known 1000,
          Nfs := attr.Value.known { V3Enabled := attr.Value.known true } } []).log =
      [fb.Call.PostApi217FileSystems ["fs1"]
        { Provisioned := some 1000, Nfs := some { V3Enabled := some true } }] :=
  ((Create_spec_projection (client.fixedClient {})
    { Name := attr.Value.known "fs1", Provisioned := attr.Value.known 1000,
      Nfs := attr.Value.known { V3Enabled := attr.Value.known true } } []).2.2
    (by decide) (by decide)).2.2.2

/-- C13 (configuration precedence): `client.New` is invoked exactly when the
effective endpoint and the effective API token are both non-empty, and then once,
with the effective endpoint, token and insecure flag: the explicit configuration
value when that attribute is non-null, otherwise `FLASHBLADE_ENDPOINT`,
`FLASHBLADE_API_TOKEN` and `FLASHBLADE_INSECURE == "true"`. -/
theorem Configure_precedence (getenv : String → String) (net : client.Network)
    (config : flashbladeProviderModel) :
    (flashbladeProvider.Configure getenv net config).newCalls =
      if (if config.Endpoint.IsNull then getenv "FLASHBLADE_ENDPOINT"
            else config.Endpoint.ValueString) = "" ∨
          (if config.ApiToken.IsNull then getenv "FLASHBLADE_API_TOKEN"
            else config.ApiToken.ValueString) = "" then []
      else
        [((if config.Endpoint.IsNull then getenv "FLASHBLADE_ENDPOINT"
            else config.Endpoint.ValueString),
          (if config.ApiToken.IsNull then getenv "FLASHBLADE_API_TOKEN"
            else config.ApiToken.ValueString),
          (if config.Insecure.IsNull then decide (getenv "FLASHBLADE_INSECURE" = "true")
            else config.Insecure.ValueBool))] := by
  have flip : ∀ {α : Type} (b : Bool) (x y : α),
      (if (!b) = true then x else y) = (if b = true then y else x) := by
    intro α b x y
    cases b <;> rfl
  unfold flashbladeProvider.Configure
  simp only [flip]
  generalize (if config.Endpoint.IsNull = true then getenv "FLASHBLADE_ENDPOINT"
    else config.Endpoint.ValueString) = endpoint
  generalize (if config.ApiToken.IsNull = true then getenv "FLASHBLADE_API_TOKEN"
    else config.ApiToken.ValueString) = apiToken
  generalize (if config.Insecure.IsNull = true then decide (getenv "FLASHBLADE_INSECURE" = "true")
    else config.Insecure.ValueBool) = insecure
  by_cases hE : endpoint = ""
  · by_cases hT : apiToken = "" <;> simp [hE, hT]
  · by_cases hT : apiToken = ""
    · simp [hE, hT]
    · simp only [hE, hT, if_false, List.append_nil, ne_eq, not_true_eq_false, or_self]
      split <;> rfl

/-- C14 (observed state is the sole source of truth written back): the model
produced by `mapFileSystemToModel` does not depend on the model passed in; each of
its 16 members is overwritten from the record, as listed member by member (`id`,
`name`, the capacity and flag scalars, `created`, `destroyed` and `time_remaining`
from the members of the same name, `requested_promotion_state` from the record
member `PromotionStatus`, `qos_policy_name` from the QoS reference, and the three
blocks from their stanzas); and every state persisted by `Create`, `Read` or
`Update` is that projection of the record returned by the API, whatever the plan
or prior state was. -/
theorem mapFileSystemToModel_sole_source (c : client.Client) (log : List fb.Call) :
    (∀ fs m1 m2, mapFileSystemToModel fs m1 = mapFileSystemToModel fs m2) ∧
    (∀ fs prior,
      mapFileSystemToModel fs prior =
        { ID := types.PointerValue fs.Id
          Name := types.PointerValue fs.Name
          Provisioned := types.PointerValue fs.Provisioned
          HardLimitEnabled := types.PointerValue fs.HardLimitEnabled
          DefaultGroupQuota := types.PointerValue fs.DefaultGroupQuota
          DefaultUserQuota := types.PointerValue fs.DefaultUserQuota
          SnapshotDirectoryEnabled := types.PointerValue fs.SnapshotDirectoryEnabled
          Writable := types.PointerValue fs.Writable
          RequestedPromotionState := types.PointerValue fs.PromotionStatus
          QosPolicyName :=
            match fs.QosPolicy with
            | some qos => types.PointerValue qos.Name
            | none => attr.Value.null
          Created := types.PointerValue fs.Created
          Destroyed := types.PointerValue fs.Destroyed
          TimeRemaining := types.PointerValue fs.TimeRemaining
          Nfs :=
            match fs.Nfs with
            | some nfs =>
              if nfs.V3Enabled ≠ none ∨ nfs.V41Enabled ≠ none then
                attr.Value.known
                  { V3Enabled := types.PointerValue nfs.V3Enabled
                    V41Enabled := types.PointerValue nfs.V41Enabled
                    Rules := types.PointerValue nfs.Rules }
              else attr.Value.null
            | none => attr.Value.null
          Smb :=
            match fs.Smb with
            | some smb =>
              if smb.Enabled = some true then
                attr.Value.known
                  { Enabled := types.PointerValue smb.Enabled
                    ContinuousAvailabilityEnabled :=
                      types.PointerValue smb.ContinuousAvailabilityEnabled
                    ClientPolicyName :=
                      match smb.ClientPolicy with
                      | some ref => types.PointerValue ref.Name
                      | none => attr.Value.null
                    SharePolicyName :=
                      match smb.SharePolicy with
                      | some ref => types.PointerValue ref.Name
                      | none => attr.Value.null }
              else attr.Value.null
            | none => attr.Value.null
          MultiProtocol :=
            match fs.MultiProtocol with
            | some mp =>
              attr.Value.known
                { AccessControlStyle := types.PointerValue mp.AccessControlStyle
                  SafeguardAcls := types.PointerValue mp.SafeguardAcls }
            | none => attr.Value.null }) ∧
    (∀ plan m, (Create c plan log).State = StateWrite.Set m →
      ∃ createdFS,
        (c.CreateFileSystem plan.Name.ValueString (Create c plan log).fsToCreate log).1 =
          Except.ok createdFS ∧
        ∀ prior, m = mapFileSystemToModel createdFS prior) ∧
    (∀ state m, (Read c state log).State = StateWrite.Set m →
      ∃ fs,
        (c.GetFileSystemByName state.Name.ValueString log).1 = Except.ok (some fs) ∧
        ∀ prior, m = mapFileSystemToModel fs prior) ∧
    (∀ plan state m, (Update c plan state log).State = StateWrite.Set m →
      ∃ updatedFS,
        (c.UpdateFileSystem plan.Name.ValueString (Update c plan state log).fsToUpdate log).1 =
          Except.ok updatedFS ∧
        ∀ prior, m = mapFileSystemToModel updatedFS prior) := by
  have hmap : ∀ fs m1 m2, mapFileSystemToModel fs m1 = mapFileSystemToModel fs m2 := by
    intro fs m1 m2
    rw [mapFileSystemToModel_eq fs m1, mapFileSystemToModel_eq fs m2]
  refine ⟨hmap, mapFileSystemToModel_eq, ?_, ?_, ?_⟩
  · intro plan m
    unfold Create
    simp only []
    split
    · simp
    · split
      · simp
      · split
        · simp
        · rename_i h
          intro hm
          simp only [StateWrite.Set.injEq] at hm
          subst hm
          refine ⟨_, ?_, fun prior => hmap _ _ prior⟩
          simp only []
          rw [h]
  · intro state m
    unfold Read
    split
    · simp
    · simp
    · rename_i h
      split
      · simp
      · intro hm
        simp only [StateWrite.Set.injEq] at hm
        subst hm
        refine ⟨_, ?_, fun prior => hmap _ _ prior⟩
        rw [h]
  · intro plan state m
    unfold Update
    simp only []
    split
    · simp
    · split
      · simp
      · split
        · simp
        · split
          · simp
          · rename_i h
            intro hm
            simp only [StateWrite.Set.injEq] at hm
            subst hm
            refine ⟨_, ?_, fun prior => hmap _ _ prior⟩
            simp only []
            rw [h]

/-- A read of a live record persists its projection, whatever the prior state. -/
theorem mapFileSystemToModel_sole_source_witness :
    ∃ fs,
      ((client.fixedClient { Name := some "fs1" }).GetFileSystemByName "fs1" []).1 =
        Except.ok (some fs) ∧
      ∀ prior,
        mapFileSystemToModel { Name := some "fs1" } { Name := attr.Value.known "fs1" } =
          mapFileSystemToModel fs prior :=
  (mapFileSystemToModel_sole_source (client.fixedClient { Name := some "fs1" }) []).2.2.2.1
    { Name := attr.Value.known "fs1" }
    (mapFileSystemToModel { Name := some "fs1" } { Name := attr.Value.known "fs1" }) rfl

/-- C15 (NFS projection): `mapFileSystemToModel` yields a non-null `nfs` block if and
only if the record has an NFS stanza in which `v3_enabled` or `v4_1_enabled` is
present; a stanza carrying only export rules projects to a null block; and a
non-null block has the three sub-fields of the stanza (null where absent). -/
theorem mapFileSystemToModel_nfs_projection (fs : fb.FileSystem)
    (model : fileSystemResourceModel) :
    ((mapFileSystemToModel fs model).Nfs ≠ attr.Value.null ↔
      ∃ nfs, fs.Nfs = some nfs ∧ (nfs.V3Enabled ≠ none ∨ nfs.V41Enabled ≠ none)) ∧
    (∀ rules, fs.Nfs = some { Rules := rules } →
      (mapFileSystemToModel fs model).Nfs = attr.Value.null) ∧
    (∀ nfs, fs.Nfs = some nfs → (nfs.V3Enabled ≠ none ∨ nfs.V41Enabled ≠ none) →
      (mapFileSystemToModel fs model).Nfs =
        attr.Value.known
          { V3Enabled := types.PointerValue nfs.V3Enabled
            V41Enabled := types.PointerValue nfs.V41Enabled
            Rules := types.PointerValue nfs.Rules }) := by
  rw [mapFileSystemToModel_eq]
  cases hn : fs.Nfs with
  | none => simp
  | some nfs =>
    by_cases h : nfs.V3Enabled ≠ none ∨ nfs.V41Enabled ≠ none
    · simp [h]
      intro rules hr
      subst hr
      simp at h
    · simp [h]
      simpa using h

/-- A stanza carrying only export rules projects to a null `nfs` block. -/
theorem mapFileSystemToModel_nfs_projection_witness :
    (mapFileSystemToModel { Name := some "fs1", Nfs := some { Rules := some "*(rw)" } }
      {}).Nfs = attr.Value.null :=
  (mapFileSystemToModel_nfs_projection
    { Name := some "fs1", Nfs := some { Rules := some "*(rw)" } } {}).2.1 (some "*(rw)") rfl

/-- C16 (the decision of `Update` depends only on ten compared attributes): when
desired and observed agree on the eight scalars, `nfs` and `smb`, `Update` makes no
call, writes no state and reports nothing, whatever the other six attributes are;
and in every run the log is unchanged or extended by one patch call addressed by
the desired name, whose body never sets a name, a destroyed flag or a
multi-protocol block. -/
theorem Update_depends_on_ten (c : client.Client) (plan state : fileSystemResourceModel)
    (log : List fb.Call) :
    (plan.Provisioned = state.Provisioned →
      plan.HardLimitEnabled = state.HardLimitEnabled →
      plan.DefaultGroupQuota = state.DefaultGroupQuota →
      plan.DefaultUserQuota = state.DefaultUserQuota →
      plan.SnapshotDirectoryEnabled = state.SnapshotDirectoryEnabled →
      plan.Writable = state.Writable →
      plan.RequestedPromotionState = state.RequestedPromotionState →
      plan.QosPolicyName = state.QosPolicyName →
      plan.Nfs = state.Nfs →
      plan.Smb = state.Smb →
      Update c plan state log =
        { fsToUpdate := {}, isPatchNeeded := false, Diagnostics := [],
          State := StateWrite.untouched, log := log }) ∧
    ((Update c plan state log).log = log ∨
      (Update c plan state log).log =
        log ++ [fb.Call.PatchApi217FileSystems [plan.Name.ValueString]
          (Update c plan state log).fsToUpdate]) ∧
    (Update c plan state log).fsToUpdate.Name = none ∧
    (Update c plan state log).fsToUpdate.Destroyed = none ∧
    (Update c plan state log).fsToUpdate.MultiProtocol = none := by
  refine ⟨?_, ?_, ?_, ?_, ?_⟩
  · intro h1 h2 h3 h4 h5 h6 h7 h8 h9 h10
    simp [Update, Update_scalars_eq, Update.nfs, Update.smb, h1, h2, h3, h4, h5, h6, h7, h8,
      h9, h10]
  · unfold Update
    simp only []
    split
    · left; rfl
    · split
      · left; rfl
      · split
        · left; rfl
        · rename_i l _ _
          right
          have hlog := UpdateFileSystem_log c plan.Name.ValueString l.fsToUpdate log
          rcases hu : c.UpdateFileSystem plan.Name.ValueString l.fsToUpdate log with ⟨r, lg⟩
          rw [hu] at hlog
          simp only at hlog
          subst hlog
          cases r <;> rfl
  · rw [Update_fsToUpdate, Update_scalars_eq]
  · rw [Update_fsToUpdate, Update_scalars_eq]
  · rw [Update_fsToUpdate, Update_scalars_eq]

/-- Models that differ only in `id` and `destroyed`: no call, no state write. -/
theorem Update_depends_on_ten_witness :
    Update (client.fixedClient {})
        { Name := attr.Value.known "fs1", Provisioned := attr.Value.known 1000 }
        { Name := attr.Value.known "fs1", Provisioned := attr.Value.known 1000,
          ID := attr.Value.known "abc", Destroyed := attr.Value.known false } [] =
      { fsToUpdate := {}, isPatchNeeded := false, Diagnostics := [],
        State := StateWrite.untouched, log := [] } :=
  (Update_depends_on_ten (client.fixedClient {})
    { Name := attr.Value.known "fs1", Provisioned := attr.Value.known 1000 }
    { Name := attr.Value.known "fs1", Provisioned := attr.Value.known 1000,
      ID := attr.Value.known "abc", Destroyed := attr.Value.known false } []).1
    rfl rfl rfl rfl rfl rfl rfl rfl rfl rfl

end provider
